import Mathlib

/-!
Verification of the stream2sentence sentence-splitting library.

Texts are modelled as lists of Unicode characters (Go iterates strings rune
by rune).  Lengths that the Go source measures in bytes (strings.Builder.Len,
len of a string) are modelled by the UTF-8 byte length of the character list.
-/

namespace Stream2Sentence

/-- The NUL character, discarded by the splitter's scanning loop. -/
def nulChar : Char := Char.ofNat 0

/-- Models Go unicode.IsSpace: the Unicode White_Space property, which is
exactly the set of code points listed here. -/
def goIsSpace (c : Char) : Bool :=
  (9 ≤ c.toNat && c.toNat ≤ 13) || c = ' ' ||
  c.toNat = 0x85 || c.toNat = 0xA0 || c.toNat = 0x1680 ||
  (0x2000 ≤ c.toNat && c.toNat ≤ 0x200A) ||
  c.toNat = 0x2028 || c.toNat = 0x2029 || c.toNat = 0x202F ||
  c.toNat = 0x205F || c.toNat = 0x3000

/-- Models Go unicode.IsDigit (decimal digit).  The source consults the full
Unicode Nd tables; the repository's texts and delimiters only exercise the
Basic Latin range, modelled here. -/
def goIsDigit (c : Char) : Bool :=
  decide ('0' ≤ c) && decide (c ≤ '9')

/-- The Unicode uppercase-letter (Lu) code point ranges above Latin-1, as in the unicode package tables Go's IsUpper consults past its Latin-1 fast path. -/
def unicodeUpperTable : List (Nat × Nat) :=
  [
   (0x100, 0x100), (0x102, 0x102), (0x104, 0x104), (0x106, 0x106), (0x108, 0x108),
   (0x10a, 0x10a), (0x10c, 0x10c), (0x10e, 0x10e), (0x110, 0x110), (0x112, 0x112),
   (0x114, 0x114), (0x116, 0x116), (0x118, 0x118), (0x11a, 0x11a), (0x11c, 0x11c),
   (0x11e, 0x11e), (0x120, 0x120), (0x122, 0x122), (0x124, 0x124), (0x126, 0x126),
   (0x128, 0x128), (0x12a, 0x12a), (0x12c, 0x12c), (0x12e, 0x12e), (0x130, 0x130),
   (0x132, 0x132), (0x134, 0x134), (0x136, 0x136), (0x139, 0x139), (0x13b, 0x13b),
   (0x13d, 0x13d), (0x13f, 0x13f), (0x141, 0x141), (0x143, 0x143), (0x145, 0x145),
   (0x147, 0x147), (0x14a, 0x14a), (0x14c, 0x14c), (0x14e, 0x14e), (0x150, 0x150),
   (0x152, 0x152), (0x154, 0x154), (0x156, 0x156), (0x158, 0x158), (0x15a, 0x15a),
   (0x15c, 0x15c), (0x15e, 0x15e), (0x160, 0x160), (0x162, 0x162), (0x164, 0x164),
   (0x166, 0x166), (0x168, 0x168), (0x16a, 0x16a), (0x16c, 0x16c), (0x16e, 0x16e),
   (0x170, 0x170), (0x172, 0x172), (0x174, 0x174), (0x176, 0x176), (0x178, 0x179),
   (0x17b, 0x17b), (0x17d, 0x17d), (0x181, 0x182), (0x184, 0x184), (0x186, 0x187),
   (0x189, 0x18b), (0x18e, 0x191), (0x193, 0x194), (0x196, 0x198), (0x19c, 0x19d),
   (0x19f, 0x1a0), (0x1a2, 0x1a2), (0x1a4, 0x1a4), (0x1a6, 0x1a7), (0x1a9, 0x1a9),
   (0x1ac, 0x1ac), (0x1ae, 0x1af), (0x1b1, 0x1b3), (0x1b5, 0x1b5), (0x1b7, 0x1b8),
   (0x1bc, 0x1bc), (0x1c4, 0x1c4), (0x1c7, 0x1c7), (0x1ca, 0x1ca), (0x1cd, 0x1cd),
   (0x1cf, 0x1cf), (0x1d1, 0x1d1), (0x1d3, 0x1d3), (0x1d5, 0x1d5), (0x1d7, 0x1d7),
   (0x1d9, 0x1d9), (0x1db, 0x1db), (0x1de, 0x1de), (0x1e0, 0x1e0), (0x1e2, 0x1e2),
   (0x1e4, 0x1e4), (0x1e6, 0x1e6), (0x1e8, 0x1e8), (0x1ea, 0x1ea), (0x1ec, 0x1ec),
   (0x1ee, 0x1ee), (0x1f1, 0x1f1), (0x1f4, 0x1f4), (0x1f6, 0x1f8), (0x1fa, 0x1fa),
   (0x1fc, 0x1fc), (0x1fe, 0x1fe), (0x200, 0x200), (0x202, 0x202), (0x204, 0x204),
   (0x206, 0x206), (0x208, 0x208), (0x20a, 0x20a), (0x20c, 0x20c), (0x20e, 0x20e),
   (0x210, 0x210), (0x212, 0x212), (0x214, 0x214), (0x216, 0x216), (0x218, 0x218),
   (0x21a, 0x21a), (0x21c, 0x21c), (0x21e, 0x21e), (0x220, 0x220), (0x222, 0x222),
   (0x224, 0x224), (0x226, 0x226), (0x228, 0x228), (0x22a, 0x22a), (0x22c, 0x22c),
   (0x22e, 0x22e), (0x230, 0x230), (0x232, 0x232), (0x23a, 0x23b), (0x23d, 0x23e),
   (0x241, 0x241), (0x243, 0x246), (0x248, 0x248), (0x24a, 0x24a), (0x24c, 0x24c),
   (0x24e, 0x24e), (0x370, 0x370), (0x372, 0x372), (0x376, 0x376), (0x37f, 0x37f),
   (0x386, 0x386), (0x388, 0x38a), (0x38c, 0x38c), (0x38e, 0x38f), (0x391, 0x3a1),
   (0x3a3, 0x3ab), (0x3cf, 0x3cf), (0x3d2, 0x3d4), (0x3d8, 0x3d8), (0x3da, 0x3da),
   (0x3dc, 0x3dc), (0x3de, 0x3de), (0x3e0, 0x3e0), (0x3e2, 0x3e2), (0x3e4, 0x3e4),
   (0x3e6, 0x3e6), (0x3e8, 0x3e8), (0x3ea, 0x3ea), (0x3ec, 0x3ec), (0x3ee, 0x3ee),
   (0x3f4, 0x3f4), (0x3f7, 0x3f7), (0x3f9, 0x3fa), (0x3fd, 0x42f), (0x460, 0x460),
   (0x462, 0x462), (0x464, 0x464), (0x466, 0x466), (0x468, 0x468), (0x46a, 0x46a),
   (0x46c, 0x46c), (0x46e, 0x46e), (0x470, 0x470), (0x472, 0x472), (0x474, 0x474),
   (0x476, 0x476), (0x478, 0x478), (0x47a, 0x47a), (0x47c, 0x47c), (0x47e, 0x47e),
   (0x480, 0x480), (0x48a, 0x48a), (0x48c, 0x48c), (0x48e, 0x48e), (0x490, 0x490),
   (0x492, 0x492), (0x494, 0x494), (0x496, 0x496), (0x498, 0x498), (0x49a, 0x49a),
   (0x49c, 0x49c), (0x49e, 0x49e), (0x4a0, 0x4a0), (0x4a2, 0x4a2), (0x4a4, 0x4a4),
   (0x4a6, 0x4a6), (0x4a8, 0x4a8), (0x4aa, 0x4aa), (0x4ac, 0x4ac), (0x4ae, 0x4ae),
   (0x4b0, 0x4b0), (0x4b2, 0x4b2), (0x4b4, 0x4b4), (0x4b6, 0x4b6), (0x4b8, 0x4b8),
   (0x4ba, 0x4ba), (0x4bc, 0x4bc), (0x4be, 0x4be), (0x4c0, 0x4c1), (0x4c3, 0x4c3),
   (0x4c5, 0x4c5), (0x4c7, 0x4c7), (0x4c9, 0x4c9), (0x4cb, 0x4cb), (0x4cd, 0x4cd),
   (0x4d0, 0x4d0), (0x4d2, 0x4d2), (0x4d4, 0x4d4), (0x4d6, 0x4d6), (0x4d8, 0x4d8),
   (0x4da, 0x4da), (0x4dc, 0x4dc), (0x4de, 0x4de), (0x4e0, 0x4e0), (0x4e2, 0x4e2),
   (0x4e4, 0x4e4), (0x4e6, 0x4e6), (0x4e8, 0x4e8), (0x4ea, 0x4ea), (0x4ec, 0x4ec),
   (0x4ee, 0x4ee), (0x4f0, 0x4f0), (0x4f2, 0x4f2), (0x4f4, 0x4f4), (0x4f6, 0x4f6),
   (0x4f8, 0x4f8), (0x4fa, 0x4fa), (0x4fc, 0x4fc), (0x4fe, 0x4fe), (0x500, 0x500),
   (0x502, 0x502), (0x504, 0x504), (0x506, 0x506), (0x508, 0x508), (0x50a, 0x50a),
   (0x50c, 0x50c), (0x50e, 0x50e), (0x510, 0x510), (0x512, 0x512), (0x514, 0x514),
   (0x516, 0x516), (0x518, 0x518), (0x51a, 0x51a), (0x51c, 0x51c), (0x51e, 0x51e),
   (0x520, 0x520), (0x522, 0x522), (0x524, 0x524), (0x526, 0x526), (0x528, 0x528),
   (0x52a, 0x52a), (0x52c, 0x52c), (0x52e, 0x52e), (0x531, 0x556), (0x10a0, 0x10c5),
   (0x10c7, 0x10c7), (0x10cd, 0x10cd), (0x13a0, 0x13f5), (0x1c90, 0x1cba), (0x1cbd, 0x1cbf),
   (0x1e00, 0x1e00), (0x1e02, 0x1e02), (0x1e04, 0x1e04), (0x1e06, 0x1e06), (0x1e08, 0x1e08),
   (0x1e0a, 0x1e0a), (0x1e0c, 0x1e0c), (0x1e0e, 0x1e0e), (0x1e10, 0x1e10), (0x1e12, 0x1e12),
   (0x1e14, 0x1e14), (0x1e16, 0x1e16), (0x1e18, 0x1e18), (0x1e1a, 0x1e1a), (0x1e1c, 0x1e1c),
   (0x1e1e, 0x1e1e), (0x1e20, 0x1e20), (0x1e22, 0x1e22), (0x1e24, 0x1e24), (0x1e26, 0x1e26),
   (0x1e28, 0x1e28), (0x1e2a, 0x1e2a), (0x1e2c, 0x1e2c), (0x1e2e, 0x1e2e), (0x1e30, 0x1e30),
   (0x1e32, 0x1e32), (0x1e34, 0x1e34), (0x1e36, 0x1e36), (0x1e38, 0x1e38), (0x1e3a, 0x1e3a),
   (0x1e3c, 0x1e3c), (0x1e3e, 0x1e3e), (0x1e40, 0x1e40), (0x1e42, 0x1e42), (0x1e44, 0x1e44),
   (0x1e46, 0x1e46), (0x1e48, 0x1e48), (0x1e4a, 0x1e4a), (0x1e4c, 0x1e4c), (0x1e4e, 0x1e4e),
   (0x1e50, 0x1e50), (0x1e52, 0x1e52), (0x1e54, 0x1e54), (0x1e56, 0x1e56), (0x1e58, 0x1e58),
   (0x1e5a, 0x1e5a), (0x1e5c, 0x1e5c), (0x1e5e, 0x1e5e), (0x1e60, 0x1e60), (0x1e62, 0x1e62),
   (0x1e64, 0x1e64), (0x1e66, 0x1e66), (0x1e68, 0x1e68), (0x1e6a, 0x1e6a), (0x1e6c, 0x1e6c),
   (0x1e6e, 0x1e6e), (0x1e70, 0x1e70), (0x1e72, 0x1e72), (0x1e74, 0x1e74), (0x1e76, 0x1e76),
   (0x1e78, 0x1e78), (0x1e7a, 0x1e7a), (0x1e7c, 0x1e7c), (0x1e7e, 0x1e7e), (0x1e80, 0x1e80),
   (0x1e82, 0x1e82), (0x1e84, 0x1e84), (0x1e86, 0x1e86), (0x1e88, 0x1e88), (0x1e8a, 0x1e8a),
   (0x1e8c, 0x1e8c), (0x1e8e, 0x1e8e), (0x1e90, 0x1e90), (0x1e92, 0x1e92), (0x1e94, 0x1e94),
   (0x1e9e, 0x1e9e), (0x1ea0, 0x1ea0), (0x1ea2, 0x1ea2), (0x1ea4, 0x1ea4), (0x1ea6, 0x1ea6),
   (0x1ea8, 0x1ea8), (0x1eaa, 0x1eaa), (0x1eac, 0x1eac), (0x1eae, 0x1eae), (0x1eb0, 0x1eb0),
   (0x1eb2, 0x1eb2), (0x1eb4, 0x1eb4), (0x1eb6, 0x1eb6), (0x1eb8, 0x1eb8), (0x1eba, 0x1eba),
   (0x1ebc, 0x1ebc), (0x1ebe, 0x1ebe), (0x1ec0, 0x1ec0), (0x1ec2, 0x1ec2), (0x1ec4, 0x1ec4),
   (0x1ec6, 0x1ec6), (0x1ec8, 0x1ec8), (0x1eca, 0x1eca), (0x1ecc, 0x1ecc), (0x1ece, 0x1ece),
   (0x1ed0, 0x1ed0), (0x1ed2, 0x1ed2), (0x1ed4, 0x1ed4), (0x1ed6, 0x1ed6), (0x1ed8, 0x1ed8),
   (0x1eda, 0x1eda), (0x1edc, 0x1edc), (0x1ede, 0x1ede), (0x1ee0, 0x1ee0), (0x1ee2, 0x1ee2),
   (0x1ee4, 0x1ee4), (0x1ee6, 0x1ee6), (0x1ee8, 0x1ee8), (0x1eea, 0x1eea), (0x1eec, 0x1eec),
   (0x1eee, 0x1eee), (0x1ef0, 0x1ef0), (0x1ef2, 0x1ef2), (0x1ef4, 0x1ef4), (0x1ef6, 0x1ef6),
   (0x1ef8, 0x1ef8), (0x1efa, 0x1efa), (0x1efc, 0x1efc), (0x1efe, 0x1efe), (0x1f08, 0x1f0f),
   (0x1f18, 0x1f1d), (0x1f28, 0x1f2f), (0x1f38, 0x1f3f), (0x1f48, 0x1f4d), (0x1f59, 0x1f59),
   (0x1f5b, 0x1f5b), (0x1f5d, 0x1f5d), (0x1f5f, 0x1f5f), (0x1f68, 0x1f6f), (0x1fb8, 0x1fbb),
   (0x1fc8, 0x1fcb), (0x1fd8, 0x1fdb), (0x1fe8, 0x1fec), (0x1ff8, 0x1ffb), (0x2102, 0x2102),
   (0x2107, 0x2107), (0x210b, 0x210d), (0x2110, 0x2112), (0x2115, 0x2115), (0x2119, 0x211d),
   (0x2124, 0x2124), (0x2126, 0x2126), (0x2128, 0x2128), (0x212a, 0x212d), (0x2130, 0x2133),
   (0x213e, 0x213f), (0x2145, 0x2145), (0x2183, 0x2183), (0x2c00, 0x2c2f), (0x2c60, 0x2c60),
   (0x2c62, 0x2c64), (0x2c67, 0x2c67), (0x2c69, 0x2c69), (0x2c6b, 0x2c6b), (0x2c6d, 0x2c70),
   (0x2c72, 0x2c72), (0x2c75, 0x2c75), (0x2c7e, 0x2c80), (0x2c82, 0x2c82), (0x2c84, 0x2c84),
   (0x2c86, 0x2c86), (0x2c88, 0x2c88), (0x2c8a, 0x2c8a), (0x2c8c, 0x2c8c), (0x2c8e, 0x2c8e),
   (0x2c90, 0x2c90), (0x2c92, 0x2c92), (0x2c94, 0x2c94), (0x2c96, 0x2c96), (0x2c98, 0x2c98),
   (0x2c9a, 0x2c9a), (0x2c9c, 0x2c9c), (0x2c9e, 0x2c9e), (0x2ca0, 0x2ca0), (0x2ca2, 0x2ca2),
   (0x2ca4, 0x2ca4), (0x2ca6, 0x2ca6), (0x2ca8, 0x2ca8), (0x2caa, 0x2caa), (0x2cac, 0x2cac),
   (0x2cae, 0x2cae), (0x2cb0, 0x2cb0), (0x2cb2, 0x2cb2), (0x2cb4, 0x2cb4), (0x2cb6, 0x2cb6),
   (0x2cb8, 0x2cb8), (0x2cba, 0x2cba), (0x2cbc, 0x2cbc), (0x2cbe, 0x2cbe), (0x2cc0, 0x2cc0),
   (0x2cc2, 0x2cc2), (0x2cc4, 0x2cc4), (0x2cc6, 0x2cc6), (0x2cc8, 0x2cc8), (0x2cca, 0x2cca),
   (0x2ccc, 0x2ccc), (0x2cce, 0x2cce), (0x2cd0, 0x2cd0), (0x2cd2, 0x2cd2), (0x2cd4, 0x2cd4),
   (0x2cd6, 0x2cd6), (0x2cd8, 0x2cd8), (0x2cda, 0x2cda), (0x2cdc, 0x2cdc), (0x2cde, 0x2cde),
   (0x2ce0, 0x2ce0), (0x2ce2, 0x2ce2), (0x2ceb, 0x2ceb), (0x2ced, 0x2ced), (0x2cf2, 0x2cf2),
   (0xa640, 0xa640), (0xa642, 0xa642), (0xa644, 0xa644), (0xa646, 0xa646), (0xa648, 0xa648),
   (0xa64a, 0xa64a), (0xa64c, 0xa64c), (0xa64e, 0xa64e), (0xa650, 0xa650), (0xa652, 0xa652),
   (0xa654, 0xa654), (0xa656, 0xa656), (0xa658, 0xa658), (0xa65a, 0xa65a), (0xa65c, 0xa65c),
   (0xa65e, 0xa65e), (0xa660, 0xa660), (0xa662, 0xa662), (0xa664, 0xa664), (0xa666, 0xa666),
   (0xa668, 0xa668), (0xa66a, 0xa66a), (0xa66c, 0xa66c), (0xa680, 0xa680), (0xa682, 0xa682),
   (0xa684, 0xa684), (0xa686, 0xa686), (0xa688, 0xa688), (0xa68a, 0xa68a), (0xa68c, 0xa68c),
   (0xa68e, 0xa68e), (0xa690, 0xa690), (0xa692, 0xa692), (0xa694, 0xa694), (0xa696, 0xa696),
   (0xa698, 0xa698), (0xa69a, 0xa69a), (0xa722, 0xa722), (0xa724, 0xa724), (0xa726, 0xa726),
   (0xa728, 0xa728), (0xa72a, 0xa72a), (0xa72c, 0xa72c), (0xa72e, 0xa72e), (0xa732, 0xa732),
   (0xa734, 0xa734), (0xa736, 0xa736), (0xa738, 0xa738), (0xa73a, 0xa73a), (0xa73c, 0xa73c),
   (0xa73e, 0xa73e), (0xa740, 0xa740), (0xa742, 0xa742), (0xa744, 0xa744), (0xa746, 0xa746),
   (0xa748, 0xa748), (0xa74a, 0xa74a), (0xa74c, 0xa74c), (0xa74e, 0xa74e), (0xa750, 0xa750),
   (0xa752, 0xa752), (0xa754, 0xa754), (0xa756, 0xa756), (0xa758, 0xa758), (0xa75a, 0xa75a),
   (0xa75c, 0xa75c), (0xa75e, 0xa75e), (0xa760, 0xa760), (0xa762, 0xa762), (0xa764, 0xa764),
   (0xa766, 0xa766), (0xa768, 0xa768), (0xa76a, 0xa76a), (0xa76c, 0xa76c), (0xa76e, 0xa76e),
   (0xa779, 0xa779), (0xa77b, 0xa77b), (0xa77d, 0xa77e), (0xa780, 0xa780), (0xa782, 0xa782),
   (0xa784, 0xa784), (0xa786, 0xa786), (0xa78b, 0xa78b), (0xa78d, 0xa78d), (0xa790, 0xa790),
   (0xa792, 0xa792), (0xa796, 0xa796), (0xa798, 0xa798), (0xa79a, 0xa79a), (0xa79c, 0xa79c),
   (0xa79e, 0xa79e), (0xa7a0, 0xa7a0), (0xa7a2, 0xa7a2), (0xa7a4, 0xa7a4), (0xa7a6, 0xa7a6),
   (0xa7a8, 0xa7a8), (0xa7aa, 0xa7ae), (0xa7b0, 0xa7b4), (0xa7b6, 0xa7b6), (0xa7b8, 0xa7b8),
   (0xa7ba, 0xa7ba), (0xa7bc, 0xa7bc), (0xa7be, 0xa7be), (0xa7c0, 0xa7c0), (0xa7c2, 0xa7c2),
   (0xa7c4, 0xa7c7), (0xa7c9, 0xa7c9), (0xa7d0, 0xa7d0), (0xa7d6, 0xa7d6), (0xa7d8, 0xa7d8),
   (0xa7f5, 0xa7f5), (0xff21, 0xff3a), (0x10400, 0x10427), (0x104b0, 0x104d3), (0x10570, 0x1057a),
   (0x1057c, 0x1058a), (0x1058c, 0x10592), (0x10594, 0x10595), (0x10c80, 0x10cb2), (0x118a0, 0x118bf),
   (0x16e40, 0x16e5f), (0x1d400, 0x1d419), (0x1d434, 0x1d44d), (0x1d468, 0x1d481), (0x1d49c, 0x1d49c),
   (0x1d49e, 0x1d49f), (0x1d4a2, 0x1d4a2), (0x1d4a5, 0x1d4a6), (0x1d4a9, 0x1d4ac), (0x1d4ae, 0x1d4b5),
   (0x1d4d0, 0x1d4e9), (0x1d504, 0x1d505), (0x1d507, 0x1d50a), (0x1d50d, 0x1d514), (0x1d516, 0x1d51c),
   (0x1d538, 0x1d539), (0x1d53b, 0x1d53e), (0x1d540, 0x1d544), (0x1d546, 0x1d546), (0x1d54a, 0x1d550),
   (0x1d56c, 0x1d585), (0x1d5a0, 0x1d5b9), (0x1d5d4, 0x1d5ed), (0x1d608, 0x1d621), (0x1d63c, 0x1d655),
   (0x1d670, 0x1d689), (0x1d6a8, 0x1d6c0), (0x1d6e2, 0x1d6fa), (0x1d71c, 0x1d734), (0x1d756, 0x1d76e),
   (0x1d790, 0x1d7a8), (0x1d7ca, 0x1d7ca), (0x1e900, 0x1e921)]

/-- The Unicode lowercase-letter (Ll) code point ranges above Latin-1, as in the unicode package tables Go's IsLower consults past its Latin-1 fast path. -/
def unicodeLowerTable : List (Nat × Nat) :=
  [
   (0x101, 0x101), (0x103, 0x103), (0x105, 0x105), (0x107, 0x107), (0x109, 0x109),
   (0x10b, 0x10b), (0x10d, 0x10d), (0x10f, 0x10f), (0x111, 0x111), (0x113, 0x113),
   (0x115, 0x115), (0x117, 0x117), (0x119, 0x119), (0x11b, 0x11b), (0x11d, 0x11d),
   (0x11f, 0x11f), (0x121, 0x121), (0x123, 0x123), (0x125, 0x125), (0x127, 0x127),
   (0x129, 0x129), (0x12b, 0x12b), (0x12d, 0x12d), (0x12f, 0x12f), (0x131, 0x131),
   (0x133, 0x133), (0x135, 0x135), (0x137, 0x138), (0x13a, 0x13a), (0x13c, 0x13c),
   (0x13e, 0x13e), (0x140, 0x140), (0x142, 0x142), (0x144, 0x144), (0x146, 0x146),
   (0x148, 0x149), (0x14b, 0x14b), (0x14d, 0x14d), (0x14f, 0x14f), (0x151, 0x151),
   (0x153, 0x153), (0x155, 0x155), (0x157, 0x157), (0x159, 0x159), (0x15b, 0x15b),
   (0x15d, 0x15d), (0x15f, 0x15f), (0x161, 0x161), (0x163, 0x163), (0x165, 0x165),
   (0x167, 0x167), (0x169, 0x169), (0x16b, 0x16b), (0x16d, 0x16d), (0x16f, 0x16f),
   (0x171, 0x171), (0x173, 0x173), (0x175, 0x175), (0x177, 0x177), (0x17a, 0x17a),
   (0x17c, 0x17c), (0x17e, 0x180), (0x183, 0x183), (0x185, 0x185), (0x188, 0x188),
   (0x18c, 0x18d), (0x192, 0x192), (0x195, 0x195), (0x199, 0x19b), (0x19e, 0x19e),
   (0x1a1, 0x1a1), (0x1a3, 0x1a3), (0x1a5, 0x1a5), (0x1a8, 0x1a8), (0x1aa, 0x1ab),
   (0x1ad, 0x1ad), (0x1b0, 0x1b0), (0x1b4, 0x1b4), (0x1b6, 0x1b6), (0x1b9, 0x1ba),
   (0x1bd, 0x1bf), (0x1c6, 0x1c6), (0x1c9, 0x1c9), (0x1cc, 0x1cc), (0x1ce, 0x1ce),
   (0x1d0, 0x1d0), (0x1d2, 0x1d2), (0x1d4, 0x1d4), (0x1d6, 0x1d6), (0x1d8, 0x1d8),
   (0x1da, 0x1da), (0x1dc, 0x1dd), (0x1df, 0x1df), (0x1e1, 0x1e1), (0x1e3, 0x1e3),
   (0x1e5, 0x1e5), (0x1e7, 0x1e7), (0x1e9, 0x1e9), (0x1eb, 0x1eb), (0x1ed, 0x1ed),
   (0x1ef, 0x1f0), (0x1f3, 0x1f3), (0x1f5, 0x1f5), (0x1f9, 0x1f9), (0x1fb, 0x1fb),
   (0x1fd, 0x1fd), (0x1ff, 0x1ff), (0x201, 0x201), (0x203, 0x203), (0x205, 0x205),
   (0x207, 0x207), (0x209, 0x209), (0x20b, 0x20b), (0x20d, 0x20d), (0x20f, 0x20f),
   (0x211, 0x211), (0x213, 0x213), (0x215, 0x215), (0x217, 0x217), (0x219, 0x219),
   (0x21b, 0x21b), (0x21d, 0x21d), (0x21f, 0x21f), (0x221, 0x221), (0x223, 0x223),
   (0x225, 0x225), (0x227, 0x227), (0x229, 0x229), (0x22b, 0x22b), (0x22d, 0x22d),
   (0x22f, 0x22f), (0x231, 0x231), (0x233, 0x239), (0x23c, 0x23c), (0x23f, 0x240),
   (0x242, 0x242), (0x247, 0x247), (0x249, 0x249), (0x24b, 0x24b), (0x24d, 0x24d),
   (0x24f, 0x293), (0x295, 0x2af), (0x371, 0x371), (0x373, 0x373), (0x377, 0x377),
   (0x37b, 0x37d), (0x390, 0x390), (0x3ac, 0x3ce), (0x3d0, 0x3d1), (0x3d5, 0x3d7),
   (0x3d9, 0x3d9), (0x3db, 0x3db), (0x3dd, 0x3dd), (0x3df, 0x3df), (0x3e1, 0x3e1),
   (0x3e3, 0x3e3), (0x3e5, 0x3e5), (0x3e7, 0x3e7), (0x3e9, 0x3e9), (0x3eb, 0x3eb),
   (0x3ed, 0x3ed), (0x3ef, 0x3f3), (0x3f5, 0x3f5), (0x3f8, 0x3f8), (0x3fb, 0x3fc),
   (0x430, 0x45f), (0x461, 0x461), (0x463, 0x463), (0x465, 0x465), (0x467, 0x467),
   (0x469, 0x469), (0x46b, 0x46b), (0x46d, 0x46d), (0x46f, 0x46f), (0x471, 0x471),
   (0x473, 0x473), (0x475, 0x475), (0x477, 0x477), (0x479, 0x479), (0x47b, 0x47b),
   (0x47d, 0x47d), (0x47f, 0x47f), (0x481, 0x481), (0x48b, 0x48b), (0x48d, 0x48d),
   (0x48f, 0x48f), (0x491, 0x491), (0x493, 0x493), (0x495, 0x495), (0x497, 0x497),
   (0x499, 0x499), (0x49b, 0x49b), (0x49d, 0x49d), (0x49f, 0x49f), (0x4a1, 0x4a1),
   (0x4a3, 0x4a3), (0x4a5, 0x4a5), (0x4a7, 0x4a7), (0x4a9, 0x4a9), (0x4ab, 0x4ab),
   (0x4ad, 0x4ad), (0x4af, 0x4af), (0x4b1, 0x4b1), (0x4b3, 0x4b3), (0x4b5, 0x4b5),
   (0x4b7, 0x4b7), (0x4b9, 0x4b9), (0x4bb, 0x4bb), (0x4bd, 0x4bd), (0x4bf, 0x4bf),
   (0x4c2, 0x4c2), (0x4c4, 0x4c4), (0x4c6, 0x4c6), (0x4c8, 0x4c8), (0x4ca, 0x4ca),
   (0x4cc, 0x4cc), (0x4ce, 0x4cf), (0x4d1, 0x4d1), (0x4d3, 0x4d3), (0x4d5, 0x4d5),
   (0x4d7, 0x4d7), (0x4d9, 0x4d9), (0x4db, 0x4db), (0x4dd, 0x4dd), (0x4df, 0x4df),
   (0x4e1, 0x4e1), (0x4e3, 0x4e3), (0x4e5, 0x4e5), (0x4e7, 0x4e7), (0x4e9, 0x4e9),
   (0x4eb, 0x4eb), (0x4ed, 0x4ed), (0x4ef, 0x4ef), (0x4f1, 0x4f1), (0x4f3, 0x4f3),
   (0x4f5, 0x4f5), (0x4f7, 0x4f7), (0x4f9, 0x4f9), (0x4fb, 0x4fb), (0x4fd, 0x4fd),
   (0x4ff, 0x4ff), (0x501, 0x501), (0x503, 0x503), (0x505, 0x505), (0x507, 0x507),
   (0x509, 0x509), (0x50b, 0x50b), (0x50d, 0x50d), (0x50f, 0x50f), (0x511, 0x511),
   (0x513, 0x513), (0x515, 0x515), (0x517, 0x517), (0x519, 0x519), (0x51b, 0x51b),
   (0x51d, 0x51d), (0x51f, 0x51f), (0x521, 0x521), (0x523, 0x523), (0x525, 0x525),
   (0x527, 0x527), (0x529, 0x529), (0x52b, 0x52b), (0x52d, 0x52d), (0x52f, 0x52f),
   (0x560, 0x588), (0x10d0, 0x10fa), (0x10fd, 0x10ff), (0x13f8, 0x13fd), (0x1c80, 0x1c88),
   (0x1d00, 0x1d2b), (0x1d6b, 0x1d77), (0x1d79, 0x1d9a), (0x1e01, 0x1e01), (0x1e03, 0x1e03),
   (0x1e05, 0x1e05), (0x1e07, 0x1e07), (0x1e09, 0x1e09), (0x1e0b, 0x1e0b), (0x1e0d, 0x1e0d),
   (0x1e0f, 0x1e0f), (0x1e11, 0x1e11), (0x1e13, 0x1e13), (0x1e15, 0x1e15), (0x1e17, 0x1e17),
   (0x1e19, 0x1e19), (0x1e1b, 0x1e1b), (0x1e1d, 0x1e1d), (0x1e1f, 0x1e1f), (0x1e21, 0x1e21),
   (0x1e23, 0x1e23), (0x1e25, 0x1e25), (0x1e27, 0x1e27), (0x1e29, 0x1e29), (0x1e2b, 0x1e2b),
   (0x1e2d, 0x1e2d), (0x1e2f, 0x1e2f), (0x1e31, 0x1e31), (0x1e33, 0x1e33), (0x1e35, 0x1e35),
   (0x1e37, 0x1e37), (0x1e39, 0x1e39), (0x1e3b, 0x1e3b), (0x1e3d, 0x1e3d), (0x1e3f, 0x1e3f),
   (0x1e41, 0x1e41), (0x1e43, 0x1e43), (0x1e45, 0x1e45), (0x1e47, 0x1e47), (0x1e49, 0x1e49),
   (0x1e4b, 0x1e4b), (0x1e4d, 0x1e4d), (0x1e4f, 0x1e4f), (0x1e51, 0x1e51), (0x1e53, 0x1e53),
   (0x1e55, 0x1e55), (0x1e57, 0x1e57), (0x1e59, 0x1e59), (0x1e5b, 0x1e5b), (0x1e5d, 0x1e5d),
   (0x1e5f, 0x1e5f), (0x1e61, 0x1e61), (0x1e63, 0x1e63), (0x1e65, 0x1e65), (0x1e67, 0x1e67),
   (0x1e69, 0x1e69), (0x1e6b, 0x1e6b), (0x1e6d, 0x1e6d), (0x1e6f, 0x1e6f), (0x1e71, 0x1e71),
   (0x1e73, 0x1e73), (0x1e75, 0x1e75), (0x1e77, 0x1e77), (0x1e79, 0x1e79), (0x1e7b, 0x1e7b),
   (0x1e7d, 0x1e7d), (0x1e7f, 0x1e7f), (0x1e81, 0x1e81), (0x1e83, 0x1e83), (0x1e85, 0x1e85),
   (0x1e87, 0x1e87), (0x1e89, 0x1e89), (0x1e8b, 0x1e8b), (0x1e8d, 0x1e8d), (0x1e8f, 0x1e8f),
   (0x1e91, 0x1e91), (0x1e93, 0x1e93), (0x1e95, 0x1e9d), (0x1e9f, 0x1e9f), (0x1ea1, 0x1ea1),
   (0x1ea3, 0x1ea3), (0x1ea5, 0x1ea5), (0x1ea7, 0x1ea7), (0x1ea9, 0x1ea9), (0x1eab, 0x1eab),
   (0x1ead, 0x1ead), (0x1eaf, 0x1eaf), (0x1eb1, 0x1eb1), (0x1eb3, 0x1eb3), (0x1eb5, 0x1eb5),
   (0x1eb7, 0x1eb7), (0x1eb9, 0x1eb9), (0x1ebb, 0x1ebb), (0x1ebd, 0x1ebd), (0x1ebf, 0x1ebf),
   (0x1ec1, 0x1ec1), (0x1ec3, 0x1ec3), (0x1ec5, 0x1ec5), (0x1ec7, 0x1ec7), (0x1ec9, 0x1ec9),
   (0x1ecb, 0x1ecb), (0x1ecd, 0x1ecd), (0x1ecf, 0x1ecf), (0x1ed1, 0x1ed1), (0x1ed3, 0x1ed3),
   (0x1ed5, 0x1ed5), (0x1ed7, 0x1ed7), (0x1ed9, 0x1ed9), (0x1edb, 0x1edb), (0x1edd, 0x1edd),
   (0x1edf, 0x1edf), (0x1ee1, 0x1ee1), (0x1ee3, 0x1ee3), (0x1ee5, 0x1ee5), (0x1ee7, 0x1ee7),
   (0x1ee9, 0x1ee9), (0x1eeb, 0x1eeb), (0x1eed, 0x1eed), (0x1eef, 0x1eef), (0x1ef1, 0x1ef1),
   (0x1ef3, 0x1ef3), (0x1ef5, 0x1ef5), (0x1ef7, 0x1ef7), (0x1ef9, 0x1ef9), (0x1efb, 0x1efb),
   (0x1efd, 0x1efd), (0x1eff, 0x1f07), (0x1f10, 0x1f15), (0x1f20, 0x1f27), (0x1f30, 0x1f37),
   (0x1f40, 0x1f45), (0x1f50, 0x1f57), (0x1f60, 0x1f67), (0x1f70, 0x1f7d), (0x1f80, 0x1f87),
   (0x1f90, 0x1f97), (0x1fa0, 0x1fa7), (0x1fb0, 0x1fb4), (0x1fb6, 0x1fb7), (0x1fbe, 0x1fbe),
   (0x1fc2, 0x1fc4), (0x1fc6, 0x1fc7), (0x1fd0, 0x1fd3), (0x1fd6, 0x1fd7), (0x1fe0, 0x1fe7),
   (0x1ff2, 0x1ff4), (0x1ff6, 0x1ff7), (0x210a, 0x210a), (0x210e, 0x210f), (0x2113, 0x2113),
   (0x212f, 0x212f), (0x2134, 0x2134), (0x2139, 0x2139), (0x213c, 0x213d), (0x2146, 0x2149),
   (0x214e, 0x214e), (0x2184, 0x2184), (0x2c30, 0x2c5f), (0x2c61, 0x2c61), (0x2c65, 0x2c66),
   (0x2c68, 0x2c68), (0x2c6a, 0x2c6a), (0x2c6c, 0x2c6c), (0x2c71, 0x2c71), (0x2c73, 0x2c74),
   (0x2c76, 0x2c7b), (0x2c81, 0x2c81), (0x2c83, 0x2c83), (0x2c85, 0x2c85), (0x2c87, 0x2c87),
   (0x2c89, 0x2c89), (0x2c8b, 0x2c8b), (0x2c8d, 0x2c8d), (0x2c8f, 0x2c8f), (0x2c91, 0x2c91),
   (0x2c93, 0x2c93), (0x2c95, 0x2c95), (0x2c97, 0x2c97), (0x2c99, 0x2c99), (0x2c9b, 0x2c9b),
   (0x2c9d, 0x2c9d), (0x2c9f, 0x2c9f), (0x2ca1, 0x2ca1), (0x2ca3, 0x2ca3), (0x2ca5, 0x2ca5),
   (0x2ca7, 0x2ca7), (0x2ca9, 0x2ca9), (0x2cab, 0x2cab), (0x2cad, 0x2cad), (0x2caf, 0x2caf),
   (0x2cb1, 0x2cb1), (0x2cb3, 0x2cb3), (0x2cb5, 0x2cb5), (0x2cb7, 0x2cb7), (0x2cb9, 0x2cb9),
   (0x2cbb, 0x2cbb), (0x2cbd, 0x2cbd), (0x2cbf, 0x2cbf), (0x2cc1, 0x2cc1), (0x2cc3, 0x2cc3),
   (0x2cc5, 0x2cc5), (0x2cc7, 0x2cc7), (0x2cc9, 0x2cc9), (0x2ccb, 0x2ccb), (0x2ccd, 0x2ccd),
   (0x2ccf, 0x2ccf), (0x2cd1, 0x2cd1), (0x2cd3, 0x2cd3), (0x2cd5, 0x2cd5), (0x2cd7, 0x2cd7),
   (0x2cd9, 0x2cd9), (0x2cdb, 0x2cdb), (0x2cdd, 0x2cdd), (0x2cdf, 0x2cdf), (0x2ce1, 0x2ce1),
   (0x2ce3, 0x2ce4), (0x2cec, 0x2cec), (0x2cee, 0x2cee), (0x2cf3, 0x2cf3), (0x2d00, 0x2d25),
   (0x2d27, 0x2d27), (0x2d2d, 0x2d2d), (0xa641, 0xa641), (0xa643, 0xa643), (0xa645, 0xa645),
   (0xa647, 0xa647), (0xa649, 0xa649), (0xa64b, 0xa64b), (0xa64d, 0xa64d), (0xa64f, 0xa64f),
   (0xa651, 0xa651), (0xa653, 0xa653), (0xa655, 0xa655), (0xa657, 0xa657), (0xa659, 0xa659),
   (0xa65b, 0xa65b), (0xa65d, 0xa65d), (0xa65f, 0xa65f), (0xa661, 0xa661), (0xa663, 0xa663),
   (0xa665, 0xa665), (0xa667, 0xa667), (0xa669, 0xa669), (0xa66b, 0xa66b), (0xa66d, 0xa66d),
   (0xa681, 0xa681), (0xa683, 0xa683), (0xa685, 0xa685), (0xa687, 0xa687), (0xa689, 0xa689),
   (0xa68b, 0xa68b), (0xa68d, 0xa68d), (0xa68f, 0xa68f), (0xa691, 0xa691), (0xa693, 0xa693),
   (0xa695, 0xa695), (0xa697, 0xa697), (0xa699, 0xa699), (0xa69b, 0xa69b), (0xa723, 0xa723),
   (0xa725, 0xa725), (0xa727, 0xa727), (0xa729, 0xa729), (0xa72b, 0xa72b), (0xa72d, 0xa72d),
   (0xa72f, 0xa731), (0xa733, 0xa733), (0xa735, 0xa735), (0xa737, 0xa737), (0xa739, 0xa739),
   (0xa73b, 0xa73b), (0xa73d, 0xa73d), (0xa73f, 0xa73f), (0xa741, 0xa741), (0xa743, 0xa743),
   (0xa745, 0xa745), (0xa747, 0xa747), (0xa749, 0xa749), (0xa74b, 0xa74b), (0xa74d, 0xa74d),
   (0xa74f, 0xa74f), (0xa751, 0xa751), (0xa753, 0xa753), (0xa755, 0xa755), (0xa757, 0xa757),
   (0xa759, 0xa759), (0xa75b, 0xa75b), (0xa75d, 0xa75d), (0xa75f, 0xa75f), (0xa761, 0xa761),
   (0xa763, 0xa763), (0xa765, 0xa765), (0xa767, 0xa767), (0xa769, 0xa769), (0xa76b, 0xa76b),
   (0xa76d, 0xa76d), (0xa76f, 0xa76f), (0xa771, 0xa778), (0xa77a, 0xa77a), (0xa77c, 0xa77c),
   (0xa77f, 0xa77f), (0xa781, 0xa781), (0xa783, 0xa783), (0xa785, 0xa785), (0xa787, 0xa787),
   (0xa78c, 0xa78c), (0xa78e, 0xa78e), (0xa791, 0xa791), (0xa793, 0xa795), (0xa797, 0xa797),
   (0xa799, 0xa799), (0xa79b, 0xa79b), (0xa79d, 0xa79d), (0xa79f, 0xa79f), (0xa7a1, 0xa7a1),
   (0xa7a3, 0xa7a3), (0xa7a5, 0xa7a5), (0xa7a7, 0xa7a7), (0xa7a9, 0xa7a9), (0xa7af, 0xa7af),
   (0xa7b5, 0xa7b5), (0xa7b7, 0xa7b7), (0xa7b9, 0xa7b9), (0xa7bb, 0xa7bb), (0xa7bd, 0xa7bd),
   (0xa7bf, 0xa7bf), (0xa7c1, 0xa7c1), (0xa7c3, 0xa7c3), (0xa7c8, 0xa7c8), (0xa7ca, 0xa7ca),
   (0xa7d1, 0xa7d1), (0xa7d3, 0xa7d3), (0xa7d5, 0xa7d5), (0xa7d7, 0xa7d7), (0xa7d9, 0xa7d9),
   (0xa7f6, 0xa7f6), (0xa7fa, 0xa7fa), (0xab30, 0xab5a), (0xab60, 0xab68), (0xab70, 0xabbf),
   (0xfb00, 0xfb06), (0xfb13, 0xfb17), (0xff41, 0xff5a), (0x10428, 0x1044f), (0x104d8, 0x104fb),
   (0x10597, 0x105a1), (0x105a3, 0x105b1), (0x105b3, 0x105b9), (0x105bb, 0x105bc), (0x10cc0, 0x10cf2),
   (0x118c0, 0x118df), (0x16e60, 0x16e7f), (0x1d41a, 0x1d433), (0x1d44e, 0x1d454), (0x1d456, 0x1d467),
   (0x1d482, 0x1d49b), (0x1d4b6, 0x1d4b9), (0x1d4bb, 0x1d4bb), (0x1d4bd, 0x1d4c3), (0x1d4c5, 0x1d4cf),
   (0x1d4ea, 0x1d503), (0x1d51e, 0x1d537), (0x1d552, 0x1d56b), (0x1d586, 0x1d59f), (0x1d5ba, 0x1d5d3),
   (0x1d5ee, 0x1d607), (0x1d622, 0x1d63b), (0x1d656, 0x1d66f), (0x1d68a, 0x1d6a5), (0x1d6c2, 0x1d6da),
   (0x1d6dc, 0x1d6e1), (0x1d6fc, 0x1d714), (0x1d716, 0x1d71b), (0x1d736, 0x1d74e), (0x1d750, 0x1d755),
   (0x1d770, 0x1d788), (0x1d78a, 0x1d78f), (0x1d7aa, 0x1d7c2), (0x1d7c4, 0x1d7c9), (0x1d7cb, 0x1d7cb),
   (0x1df00, 0x1df09), (0x1df0b, 0x1df1e), (0x1e922, 0x1e943)]

/-- The Unicode letter (L) code point ranges above Latin-1, as in the unicode package tables Go's IsLetter consults past its Latin-1 fast path. -/
def unicodeLetterTable : List (Nat × Nat) :=
  [
   (0x100, 0x2c1), (0x2c6, 0x2d1), (0x2e0, 0x2e4), (0x2ec, 0x2ec), (0x2ee, 0x2ee),
   (0x370, 0x374), (0x376, 0x377), (0x37a, 0x37d), (0x37f, 0x37f), (0x386, 0x386),
   (0x388, 0x38a), (0x38c, 0x38c), (0x38e, 0x3a1), (0x3a3, 0x3f5), (0x3f7, 0x481),
   (0x48a, 0x52f), (0x531, 0x556), (0x559, 0x559), (0x560, 0x588), (0x5d0, 0x5ea),
   (0x5ef, 0x5f2), (0x620, 0x64a), (0x66e, 0x66f), (0x671, 0x6d3), (0x6d5, 0x6d5),
   (0x6e5, 0x6e6), (0x6ee, 0x6ef), (0x6fa, 0x6fc), (0x6ff, 0x6ff), (0x710, 0x710),
   (0x712, 0x72f), (0x74d, 0x7a5), (0x7b1, 0x7b1), (0x7ca, 0x7ea), (0x7f4, 0x7f5),
   (0x7fa, 0x7fa), (0x800, 0x815), (0x81a, 0x81a), (0x824, 0x824), (0x828, 0x828),
   (0x840, 0x858), (0x860, 0x86a), (0x870, 0x887), (0x889, 0x88e), (0x8a0, 0x8c9),
   (0x904, 0x939), (0x93d, 0x93d), (0x950, 0x950), (0x958, 0x961), (0x971, 0x980),
   (0x985, 0x98c), (0x98f, 0x990), (0x993, 0x9a8), (0x9aa, 0x9b0), (0x9b2, 0x9b2),
   (0x9b6, 0x9b9), (0x9bd, 0x9bd), (0x9ce, 0x9ce), (0x9dc, 0x9dd), (0x9df, 0x9e1),
   (0x9f0, 0x9f1), (0x9fc, 0x9fc), (0xa05, 0xa0a), (0xa0f, 0xa10), (0xa13, 0xa28),
   (0xa2a, 0xa30), (0xa32, 0xa33), (0xa35, 0xa36), (0xa38, 0xa39), (0xa59, 0xa5c),
   (0xa5e, 0xa5e), (0xa72, 0xa74), (0xa85, 0xa8d), (0xa8f, 0xa91), (0xa93, 0xaa8),
   (0xaaa, 0xab0), (0xab2, 0xab3), (0xab5, 0xab9), (0xabd, 0xabd), (0xad0, 0xad0),
   (0xae0, 0xae1), (0xaf9, 0xaf9), (0xb05, 0xb0c), (0xb0f, 0xb10), (0xb13, 0xb28),
   (0xb2a, 0xb30), (0xb32, 0xb33), (0xb35, 0xb39), (0xb3d, 0xb3d), (0xb5c, 0xb5d),
   (0xb5f, 0xb61), (0xb71, 0xb71), (0xb83, 0xb83), (0xb85, 0xb8a), (0xb8e, 0xb90),
   (0xb92, 0xb95), (0xb99, 0xb9a), (0xb9c, 0xb9c), (0xb9e, 0xb9f), (0xba3, 0xba4),
   (0xba8, 0xbaa), (0xbae, 0xbb9), (0xbd0, 0xbd0), (0xc05, 0xc0c), (0xc0e, 0xc10),
   (0xc12, 0xc28), (0xc2a, 0xc39), (0xc3d, 0xc3d), (0xc58, 0xc5a), (0xc5d, 0xc5d),
   (0xc60, 0xc61), (0xc80, 0xc80), (0xc85, 0xc8c), (0xc8e, 0xc90), (0xc92, 0xca8),
   (0xcaa, 0xcb3), (0xcb5, 0xcb9), (0xcbd, 0xcbd), (0xcdd, 0xcde), (0xce0, 0xce1),
   (0xcf1, 0xcf2), (0xd04, 0xd0c), (0xd0e, 0xd10), (0xd12, 0xd3a), (0xd3d, 0xd3d),
   (0xd4e, 0xd4e), (0xd54, 0xd56), (0xd5f, 0xd61), (0xd7a, 0xd7f), (0xd85, 0xd96),
   (0xd9a, 0xdb1), (0xdb3, 0xdbb), (0xdbd, 0xdbd), (0xdc0, 0xdc6), (0xe01, 0xe30),
   (0xe32, 0xe33), (0xe40, 0xe46), (0xe81, 0xe82), (0xe84, 0xe84), (0xe86, 0xe8a),
   (0xe8c, 0xea3), (0xea5, 0xea5), (0xea7, 0xeb0), (0xeb2, 0xeb3), (0xebd, 0xebd),
   (0xec0, 0xec4), (0xec6, 0xec6), (0xedc, 0xedf), (0xf00, 0xf00), (0xf40, 0xf47),
   (0xf49, 0xf6c), (0xf88, 0xf8c), (0x1000, 0x102a), (0x103f, 0x103f), (0x1050, 0x1055),
   (0x105a, 0x105d), (0x1061, 0x1061), (0x1065, 0x1066), (0x106e, 0x1070), (0x1075, 0x1081),
   (0x108e, 0x108e), (0x10a0, 0x10c5), (0x10c7, 0x10c7), (0x10cd, 0x10cd), (0x10d0, 0x10fa),
   (0x10fc, 0x1248), (0x124a, 0x124d), (0x1250, 0x1256), (0x1258, 0x1258), (0x125a, 0x125d),
   (0x1260, 0x1288), (0x128a, 0x128d), (0x1290, 0x12b0), (0x12b2, 0x12b5), (0x12b8, 0x12be),
   (0x12c0, 0x12c0), (0x12c2, 0x12c5), (0x12c8, 0x12d6), (0x12d8, 0x1310), (0x1312, 0x1315),
   (0x1318, 0x135a), (0x1380, 0x138f), (0x13a0, 0x13f5), (0x13f8, 0x13fd), (0x1401, 0x166c),
   (0x166f, 0x167f), (0x1681, 0x169a), (0x16a0, 0x16ea), (0x16f1, 0x16f8), (0x1700, 0x1711),
   (0x171f, 0x1731), (0x1740, 0x1751), (0x1760, 0x176c), (0x176e, 0x1770), (0x1780, 0x17b3),
   (0x17d7, 0x17d7), (0x17dc, 0x17dc), (0x1820, 0x1878), (0x1880, 0x1884), (0x1887, 0x18a8),
   (0x18aa, 0x18aa), (0x18b0, 0x18f5), (0x1900, 0x191e), (0x1950, 0x196d), (0x1970, 0x1974),
   (0x1980, 0x19ab), (0x19b0, 0x19c9), (0x1a00, 0x1a16), (0x1a20, 0x1a54), (0x1aa7, 0x1aa7),
   (0x1b05, 0x1b33), (0x1b45, 0x1b4c), (0x1b83, 0x1ba0), (0x1bae, 0x1baf), (0x1bba, 0x1be5),
   (0x1c00, 0x1c23), (0x1c4d, 0x1c4f), (0x1c5a, 0x1c7d), (0x1c80, 0x1c88), (0x1c90, 0x1cba),
   (0x1cbd, 0x1cbf), (0x1ce9, 0x1cec), (0x1cee, 0x1cf3), (0x1cf5, 0x1cf6), (0x1cfa, 0x1cfa),
   (0x1d00, 0x1dbf), (0x1e00, 0x1f15), (0x1f18, 0x1f1d), (0x1f20, 0x1f45), (0x1f48, 0x1f4d),
   (0x1f50, 0x1f57), (0x1f59, 0x1f59), (0x1f5b, 0x1f5b), (0x1f5d, 0x1f5d), (0x1f5f, 0x1f7d),
   (0x1f80, 0x1fb4), (0x1fb6, 0x1fbc), (0x1fbe, 0x1fbe), (0x1fc2, 0x1fc4), (0x1fc6, 0x1fcc),
   (0x1fd0, 0x1fd3), (0x1fd6, 0x1fdb), (0x1fe0, 0x1fec), (0x1ff2, 0x1ff4), (0x1ff6, 0x1ffc),
   (0x2071, 0x2071), (0x207f, 0x207f), (0x2090, 0x209c), (0x2102, 0x2102), (0x2107, 0x2107),
   (0x210a, 0x2113), (0x2115, 0x2115), (0x2119, 0x211d), (0x2124, 0x2124), (0x2126, 0x2126),
   (0x2128, 0x2128), (0x212a, 0x212d), (0x212f, 0x2139), (0x213c, 0x213f), (0x2145, 0x2149),
   (0x214e, 0x214e), (0x2183, 0x2184), (0x2c00, 0x2ce4), (0x2ceb, 0x2cee), (0x2cf2, 0x2cf3),
   (0x2d00, 0x2d25), (0x2d27, 0x2d27), (0x2d2d, 0x2d2d), (0x2d30, 0x2d67), (0x2d6f, 0x2d6f),
   (0x2d80, 0x2d96), (0x2da0, 0x2da6), (0x2da8, 0x2dae), (0x2db0, 0x2db6), (0x2db8, 0x2dbe),
   (0x2dc0, 0x2dc6), (0x2dc8, 0x2dce), (0x2dd0, 0x2dd6), (0x2dd8, 0x2dde), (0x2e2f, 0x2e2f),
   (0x3005, 0x3006), (0x3031, 0x3035), (0x303b, 0x303c), (0x3041, 0x3096), (0x309d, 0x309f),
   (0x30a1, 0x30fa), (0x30fc, 0x30ff), (0x3105, 0x312f), (0x3131, 0x318e), (0x31a0, 0x31bf),
   (0x31f0, 0x31ff), (0x3400, 0x4dbf), (0x4e00, 0xa48c), (0xa4d0, 0xa4fd), (0xa500, 0xa60c),
   (0xa610, 0xa61f), (0xa62a, 0xa62b), (0xa640, 0xa66e), (0xa67f, 0xa69d), (0xa6a0, 0xa6e5),
   (0xa717, 0xa71f), (0xa722, 0xa788), (0xa78b, 0xa7ca), (0xa7d0, 0xa7d1), (0xa7d3, 0xa7d3),
   (0xa7d5, 0xa7d9), (0xa7f2, 0xa801), (0xa803, 0xa805), (0xa807, 0xa80a), (0xa80c, 0xa822),
   (0xa840, 0xa873), (0xa882, 0xa8b3), (0xa8f2, 0xa8f7), (0xa8fb, 0xa8fb), (0xa8fd, 0xa8fe),
   (0xa90a, 0xa925), (0xa930, 0xa946), (0xa960, 0xa97c), (0xa984, 0xa9b2), (0xa9cf, 0xa9cf),
   (0xa9e0, 0xa9e4), (0xa9e6, 0xa9ef), (0xa9fa, 0xa9fe), (0xaa00, 0xaa28), (0xaa40, 0xaa42),
   (0xaa44, 0xaa4b), (0xaa60, 0xaa76), (0xaa7a, 0xaa7a), (0xaa7e, 0xaaaf), (0xaab1, 0xaab1),
   (0xaab5, 0xaab6), (0xaab9, 0xaabd), (0xaac0, 0xaac0), (0xaac2, 0xaac2), (0xaadb, 0xaadd),
   (0xaae0, 0xaaea), (0xaaf2, 0xaaf4), (0xab01, 0xab06), (0xab09, 0xab0e), (0xab11, 0xab16),
   (0xab20, 0xab26), (0xab28, 0xab2e), (0xab30, 0xab5a), (0xab5c, 0xab69), (0xab70, 0xabe2),
   (0xac00, 0xd7a3), (0xd7b0, 0xd7c6), (0xd7cb, 0xd7fb), (0xf900, 0xfa6d), (0xfa70, 0xfad9),
   (0xfb00, 0xfb06), (0xfb13, 0xfb17), (0xfb1d, 0xfb1d), (0xfb1f, 0xfb28), (0xfb2a, 0xfb36),
   (0xfb38, 0xfb3c), (0xfb3e, 0xfb3e), (0xfb40, 0xfb41), (0xfb43, 0xfb44), (0xfb46, 0xfbb1),
   (0xfbd3, 0xfd3d), (0xfd50, 0xfd8f), (0xfd92, 0xfdc7), (0xfdf0, 0xfdfb), (0xfe70, 0xfe74),
   (0xfe76, 0xfefc), (0xff21, 0xff3a), (0xff41, 0xff5a), (0xff66, 0xffbe), (0xffc2, 0xffc7),
   (0xffca, 0xffcf), (0xffd2, 0xffd7), (0xffda, 0xffdc), (0x10000, 0x1000b), (0x1000d, 0x10026),
   (0x10028, 0x1003a), (0x1003c, 0x1003d), (0x1003f, 0x1004d), (0x10050, 0x1005d), (0x10080, 0x100fa),
   (0x10280, 0x1029c), (0x102a0, 0x102d0), (0x10300, 0x1031f), (0x1032d, 0x10340), (0x10342, 0x10349),
   (0x10350, 0x10375), (0x10380, 0x1039d), (0x103a0, 0x103c3), (0x103c8, 0x103cf), (0x10400, 0x1049d),
   (0x104b0, 0x104d3), (0x104d8, 0x104fb), (0x10500, 0x10527), (0x10530, 0x10563), (0x10570, 0x1057a),
   (0x1057c, 0x1058a), (0x1058c, 0x10592), (0x10594, 0x10595), (0x10597, 0x105a1), (0x105a3, 0x105b1),
   (0x105b3, 0x105b9), (0x105bb, 0x105bc), (0x10600, 0x10736), (0x10740, 0x10755), (0x10760, 0x10767),
   (0x10780, 0x10785), (0x10787, 0x107b0), (0x107b2, 0x107ba), (0x10800, 0x10805), (0x10808, 0x10808),
   (0x1080a, 0x10835), (0x10837, 0x10838), (0x1083c, 0x1083c), (0x1083f, 0x10855), (0x10860, 0x10876),
   (0x10880, 0x1089e), (0x108e0, 0x108f2), (0x108f4, 0x108f5), (0x10900, 0x10915), (0x10920, 0x10939),
   (0x10980, 0x109b7), (0x109be, 0x109bf), (0x10a00, 0x10a00), (0x10a10, 0x10a13), (0x10a15, 0x10a17),
   (0x10a19, 0x10a35), (0x10a60, 0x10a7c), (0x10a80, 0x10a9c), (0x10ac0, 0x10ac7), (0x10ac9, 0x10ae4),
   (0x10b00, 0x10b35), (0x10b40, 0x10b55), (0x10b60, 0x10b72), (0x10b80, 0x10b91), (0x10c00, 0x10c48),
   (0x10c80, 0x10cb2), (0x10cc0, 0x10cf2), (0x10d00, 0x10d23), (0x10e80, 0x10ea9), (0x10eb0, 0x10eb1),
   (0x10f00, 0x10f1c), (0x10f27, 0x10f27), (0x10f30, 0x10f45), (0x10f70, 0x10f81), (0x10fb0, 0x10fc4),
   (0x10fe0, 0x10ff6), (0x11003, 0x11037), (0x11071, 0x11072), (0x11075, 0x11075), (0x11083, 0x110af),
   (0x110d0, 0x110e8), (0x11103, 0x11126), (0x11144, 0x11144), (0x11147, 0x11147), (0x11150, 0x11172),
   (0x11176, 0x11176), (0x11183, 0x111b2), (0x111c1, 0x111c4), (0x111da, 0x111da), (0x111dc, 0x111dc),
   (0x11200, 0x11211), (0x11213, 0x1122b), (0x11280, 0x11286), (0x11288, 0x11288), (0x1128a, 0x1128d),
   (0x1128f, 0x1129d), (0x1129f, 0x112a8), (0x112b0, 0x112de), (0x11305, 0x1130c), (0x1130f, 0x11310),
   (0x11313, 0x11328), (0x1132a, 0x11330), (0x11332, 0x11333), (0x11335, 0x11339), (0x1133d, 0x1133d),
   (0x11350, 0x11350), (0x1135d, 0x11361), (0x11400, 0x11434), (0x11447, 0x1144a), (0x1145f, 0x11461),
   (0x11480, 0x114af), (0x114c4, 0x114c5), (0x114c7, 0x114c7), (0x11580, 0x115ae), (0x115d8, 0x115db),
   (0x11600, 0x1162f), (0x11644, 0x11644), (0x11680, 0x116aa), (0x116b8, 0x116b8), (0x11700, 0x1171a),
   (0x11740, 0x11746), (0x11800, 0x1182b), (0x118a0, 0x118df), (0x118ff, 0x11906), (0x11909, 0x11909),
   (0x1190c, 0x11913), (0x11915, 0x11916), (0x11918, 0x1192f), (0x1193f, 0x1193f), (0x11941, 0x11941),
   (0x119a0, 0x119a7), (0x119aa, 0x119d0), (0x119e1, 0x119e1), (0x119e3, 0x119e3), (0x11a00, 0x11a00),
   (0x11a0b, 0x11a32), (0x11a3a, 0x11a3a), (0x11a50, 0x11a50), (0x11a5c, 0x11a89), (0x11a9d, 0x11a9d),
   (0x11ab0, 0x11af8), (0x11c00, 0x11c08), (0x11c0a, 0x11c2e), (0x11c40, 0x11c40), (0x11c72, 0x11c8f),
   (0x11d00, 0x11d06), (0x11d08, 0x11d09), (0x11d0b, 0x11d30), (0x11d46, 0x11d46), (0x11d60, 0x11d65),
   (0x11d67, 0x11d68), (0x11d6a, 0x11d89), (0x11d98, 0x11d98), (0x11ee0, 0x11ef2), (0x11fb0, 0x11fb0),
   (0x12000, 0x12399), (0x12480, 0x12543), (0x12f90, 0x12ff0), (0x13000, 0x1342e), (0x14400, 0x14646),
   (0x16800, 0x16a38), (0x16a40, 0x16a5e), (0x16a70, 0x16abe), (0x16ad0, 0x16aed), (0x16b00, 0x16b2f),
   (0x16b40, 0x16b43), (0x16b63, 0x16b77), (0x16b7d, 0x16b8f), (0x16e40, 0x16e7f), (0x16f00, 0x16f4a),
   (0x16f50, 0x16f50), (0x16f93, 0x16f9f), (0x16fe0, 0x16fe1), (0x16fe3, 0x16fe3), (0x17000, 0x187f7),
   (0x18800, 0x18cd5), (0x18d00, 0x18d08), (0x1aff0, 0x1aff3), (0x1aff5, 0x1affb), (0x1affd, 0x1affe),
   (0x1b000, 0x1b122), (0x1b150, 0x1b152), (0x1b164, 0x1b167), (0x1b170, 0x1b2fb), (0x1bc00, 0x1bc6a),
   (0x1bc70, 0x1bc7c), (0x1bc80, 0x1bc88), (0x1bc90, 0x1bc99), (0x1d400, 0x1d454), (0x1d456, 0x1d49c),
   (0x1d49e, 0x1d49f), (0x1d4a2, 0x1d4a2), (0x1d4a5, 0x1d4a6), (0x1d4a9, 0x1d4ac), (0x1d4ae, 0x1d4b9),
   (0x1d4bb, 0x1d4bb), (0x1d4bd, 0x1d4c3), (0x1d4c5, 0x1d505), (0x1d507, 0x1d50a), (0x1d50d, 0x1d514),
   (0x1d516, 0x1d51c), (0x1d51e, 0x1d539), (0x1d53b, 0x1d53e), (0x1d540, 0x1d544), (0x1d546, 0x1d546),
   (0x1d54a, 0x1d550), (0x1d552, 0x1d6a5), (0x1d6a8, 0x1d6c0), (0x1d6c2, 0x1d6da), (0x1d6dc, 0x1d6fa),
   (0x1d6fc, 0x1d714), (0x1d716, 0x1d734), (0x1d736, 0x1d74e), (0x1d750, 0x1d76e), (0x1d770, 0x1d788),
   (0x1d78a, 0x1d7a8), (0x1d7aa, 0x1d7c2), (0x1d7c4, 0x1d7cb), (0x1df00, 0x1df1e), (0x1e100, 0x1e12c),
   (0x1e137, 0x1e13d), (0x1e14e, 0x1e14e), (0x1e290, 0x1e2ad), (0x1e2c0, 0x1e2eb), (0x1e7e0, 0x1e7e6),
   (0x1e7e8, 0x1e7eb), (0x1e7ed, 0x1e7ee), (0x1e7f0, 0x1e7fe), (0x1e800, 0x1e8c4), (0x1e900, 0x1e943),
   (0x1e94b, 0x1e94b), (0x1ee00, 0x1ee03), (0x1ee05, 0x1ee1f), (0x1ee21, 0x1ee22), (0x1ee24, 0x1ee24),
   (0x1ee27, 0x1ee27), (0x1ee29, 0x1ee32), (0x1ee34, 0x1ee37), (0x1ee39, 0x1ee39), (0x1ee3b, 0x1ee3b),
   (0x1ee42, 0x1ee42), (0x1ee47, 0x1ee47), (0x1ee49, 0x1ee49), (0x1ee4b, 0x1ee4b), (0x1ee4d, 0x1ee4f),
   (0x1ee51, 0x1ee52), (0x1ee54, 0x1ee54), (0x1ee57, 0x1ee57), (0x1ee59, 0x1ee59), (0x1ee5b, 0x1ee5b),
   (0x1ee5d, 0x1ee5d), (0x1ee5f, 0x1ee5f), (0x1ee61, 0x1ee62), (0x1ee64, 0x1ee64), (0x1ee67, 0x1ee6a),
   (0x1ee6c, 0x1ee72), (0x1ee74, 0x1ee77), (0x1ee79, 0x1ee7c), (0x1ee7e, 0x1ee7e), (0x1ee80, 0x1ee89),
   (0x1ee8b, 0x1ee9b), (0x1eea1, 0x1eea3), (0x1eea5, 0x1eea9), (0x1eeab, 0x1eebb), (0x20000, 0x2a6df),
   (0x2a700, 0x2b738), (0x2b740, 0x2b81d), (0x2b820, 0x2cea1), (0x2ceb0, 0x2ebe0), (0x2f800, 0x2fa1d),
   (0x30000, 0x3134a)]

/-- Membership of a code point in a sorted list of inclusive ranges. -/
def inTable (rs : List (Nat × Nat)) (n : Nat) : Bool :=
  rs.any (fun p => decide (p.1 ≤ n) && decide (n ≤ p.2))

/-- Models Go unicode.IsUpper: the Latin-1 properties fast path, then the
Lu category range table. -/
def goIsUpper (c : Char) : Bool :=
  if c.toNat < 0x100 then
    (0x41 ≤ c.toNat && c.toNat ≤ 0x5A) ||
    (0xC0 ≤ c.toNat && c.toNat ≤ 0xD6) ||
    (0xD8 ≤ c.toNat && c.toNat ≤ 0xDE)
  else inTable unicodeUpperTable c.toNat

/-- Models Go unicode.IsLower: the Latin-1 properties fast path, then the
Ll category range table. -/
def goIsLower (c : Char) : Bool :=
  if c.toNat < 0x100 then
    (0x61 ≤ c.toNat && c.toNat ≤ 0x7A) || c.toNat = 0xB5 ||
    (0xDF ≤ c.toNat && c.toNat ≤ 0xF6) ||
    (0xF8 ≤ c.toNat && c.toNat ≤ 0xFF)
  else inTable unicodeLowerTable c.toNat

/-- Models Go unicode.IsLetter: the Latin-1 properties fast path, then the
combined letter-category (L) range table. -/
def goIsLetter (c : Char) : Bool :=
  if c.toNat < 0x100 then
    (0x41 ≤ c.toNat && c.toNat ≤ 0x5A) ||
    (0x61 ≤ c.toNat && c.toNat ≤ 0x7A) ||
    c.toNat = 0xAA || c.toNat = 0xB5 || c.toNat = 0xBA ||
    (0xC0 ≤ c.toNat && c.toNat ≤ 0xD6) ||
    (0xD8 ≤ c.toNat && c.toNat ≤ 0xF6) ||
    (0xF8 ≤ c.toNat && c.toNat ≤ 0xFF)
  else inTable unicodeLetterTable c.toNat

/-- Models Go unicode.ToLower (the simple case mapping strings.ToLower
applies per rune) on every code point whose image matters to this
development: its only use is the lookup of a scanned letter run in the
all-ASCII abbreviation key set, so the mapping must be exact on ASCII and
on the only two non-ASCII code points whose simple lowercase IS ASCII
(U+0130 latin capital I with dot above, whose simple lowercase is i, and
U+212A kelvin sign, whose simple lowercase is k); every other code point
lowercases within its own non-ASCII script, so mapping it to itself leaves
key membership unchanged. -/
def goToLowerChar (c : Char) : Char :=
  if decide ('A' ≤ c) && decide (c ≤ 'Z') then Char.ofNat (c.toNat + 32)
  else if c.toNat = 0x130 then 'i'
  else if c.toNat = 0x212A then 'k'
  else c

/-- strings.ToLower over a whole text. -/
def goToLower (l : List Char) : List Char :=
  l.map goToLowerChar

/-- The UTF-8 byte length of a character list: what Go's len() and
strings.Builder.Len() return for the corresponding string. -/
def utf8Len (l : List Char) : Nat :=
  (l.map Char.utf8Size).sum

/-- strings.TrimSpace: drop leading and trailing Unicode whitespace. -/
def trimSpaceGo (l : List Char) : List Char :=
  ((l.dropWhile goIsSpace).reverse.dropWhile goIsSpace).reverse

/-- The cutset of the splitter's strings.TrimLeft call: space, tab, newline,
carriage return. -/
def asciiCutset : List Char := [' ', Char.ofNat 9, Char.ofNat 10, Char.ofNat 13]

/-- strings.TrimLeft with the cutset above, as called in Stream. -/
def trimLeftCutset (l : List Char) : List Char :=
  l.dropWhile (fun c => asciiCutset.contains c)

/-- strings.Split on a one-character separator: the fields between
occurrences of the separator, empty fields kept. -/
def splitOnChar (sep : Char) : List Char → List (List Char)
  | [] => [[]]
  | c :: cs =>
    if c = sep then [] :: splitOnChar sep cs
    else
      match splitOnChar sep cs with
      | [] => [[c]]
      | w :: ws => (c :: w) :: ws

/-- strings.HasPrefix for character lists. -/
def goHasPrefix (pre w : List Char) : Bool :=
  match pre, w with
  | [], _ => true
  | _ :: _, [] => false
  | p :: ps, c :: cs => p = c && goHasPrefix ps cs

/-- The commonAbbreviations map of tokenizer.go, as the list of its keys. -/
def commonAbbreviationsList : List (List Char) :=
  ["Mr".data, "Mrs".data, "Ms".data, "Dr".data,
   "Prof".data, "Rev".data, "St".data,
   "Jr".data, "Sr".data, "Inc".data, "Ltd".data,
   "Corp".data, "Co".data, "Ave".data, "Blvd".data,
   "vs".data, "etc".data, "ie".data, "eg".data,
   "am".data, "pm".data]

/-- Membership test `commonAbbreviations[abbrev] || commonAbbreviations[ToLower(abbrev)]`
from isAbbreviation. -/
def isCommonAbbreviation (w : List Char) : Bool :=
  commonAbbreviationsList.contains w || commonAbbreviationsList.contains (goToLower w)

/-- The backwards letter scan of isAbbreviation: the start index of the
maximal run of letters ending just before the given position. -/
def scanLettersBack (runes : List Char) : Nat → Nat
  | 0 => 0
  | n + 1 => if goIsLetter (runes.getD n nulChar) then scanLettersBack runes n else n + 1

/-- isAbbreviation from tokenizer.go: whether the period at dotPos follows a
maximal letter run that is a known abbreviation token. -/
def isAbbreviation (runes : List Char) (dotPos : Nat) : Bool :=
  if dotPos < 2 then false
  else
    let start := scanLettersBack runes dotPos
    if start ≥ dotPos then false
    else isCommonAbbreviation ((runes.drop start).take (dotPos - start))

/-- findNextNonSpace from tokenizer.go, index-carrying helper. -/
def findNextNonSpaceAux : List Char → Nat → Option Nat
  | [], _ => none
  | c :: cs, i => if goIsSpace c then findNextNonSpaceAux cs (i + 1) else some i

/-- findNextNonSpace from tokenizer.go: the first index at or after start
holding a non-whitespace character (none models Go's -1). -/
def findNextNonSpace (runes : List Char) (start : Nat) : Option Nat :=
  findNextNonSpaceAux (runes.drop start) start

/-- detectTableLine from text_utils.go.  Go compares
float64(tableChars)/float64(lineLen) > 0.5; for natural numbers of this size
the float comparison is exact and equals 2*tableChars > lineLen. -/
def detectTableLine (line : List Char) : Bool :=
  let trimmed := trimSpaceGo line
  if trimmed = [] then false
  else
    let pipeCount := trimmed.count '|'
    let tabCount := trimmed.count (Char.ofNat 9)
    let plusCount := trimmed.count '+'
    let dashCount := trimmed.count '-'
    let equalsCount := trimmed.count '='
    let lineLen := utf8Len trimmed
    if pipeCount ≥ 2 || tabCount ≥ 2 then true
    else
      let tableChars := pipeCount + plusCount + dashCount + equalsCount
      if lineLen > 0 && 2 * tableChars > lineLen then true
      else if lineLen > 3 &&
          trimmed.all (fun r => r = '-' || r = '=' || r = '_' || r = '+' ||
            r = '|' || r = ' ' || r = Char.ofNat 9) then true
      else if goHasPrefix ['|'] trimmed && goHasPrefix ['|'] trimmed.reverse then true
      else false

/-- The backwards scan of isInsideTableCell for the start of the line. -/
def lineStartPos (runes : List Char) : Nat → Nat
  | 0 => 0
  | p + 1 => if runes.getD p nulChar = Char.ofNat 10 then p + 1 else lineStartPos runes p

/-- The forwards scan of isInsideTableCell for the end of the line. -/
def lineEndPos (runes : List Char) (pos : Nat) : Nat :=
  pos + ((runes.drop (pos + 1)).takeWhile (fun c => c ≠ Char.ofNat 10)).length

/-- The line around a position, delimited by the nearest newlines, exactly
as isInsideTableCell extracts it. -/
def lineOf (runes : List Char) (pos : Nat) : List Char :=
  (runes.drop (lineStartPos runes pos)).take
    (lineEndPos runes pos + 1 - lineStartPos runes pos)

/-- isInsideTableCell from tokenizer.go: the position's line looks like a
table row and there are pipe characters both before and after the position
on that line. -/
def isInsideTableCell (runes : List Char) (pos : Nat) : Bool :=
  let line := lineOf runes pos
  if detectTableLine line then
    let posInLine := pos - lineStartPos runes pos
    let pipesBefore := (line.take posInLine).count '|'
    let pipesAfter := (line.drop (posInLine + 1)).count '|'
    pipesBefore > 0 && pipesAfter > 0
  else false

/-- isEndOfSentence from tokenizer.go: whether the delimiter at pos really
ends a sentence. -/
def isEndOfSentence (runes : List Char) (pos : Nat) : Bool :=
  if isInsideTableCell runes pos then false
  else
    let current := runes.getD pos nulChar
    if current = '.' then
      if 0 < pos ∧ pos < runes.length - 1 ∧
          goIsDigit (runes.getD (pos - 1) nulChar) = true ∧
          goIsDigit (runes.getD (pos + 1) nulChar) = true then false
      else if 0 < pos ∧ isAbbreviation runes pos = true then false
      else
        match findNextNonSpace runes (pos + 1) with
        | none => true
        | some i =>
          if goIsUpper (runes.getD i nulChar) then true
          else if goIsLower (runes.getD i nulChar) then false
          else true
    else if current = ',' then
      if 0 < pos ∧ pos < runes.length - 1 ∧
          goIsDigit (runes.getD (pos - 1) nulChar) = true ∧
          goIsDigit (runes.getD (pos + 1) nulChar) = true then false
      else true
    else true

/-- The scanning loop of TokenizeSentencesWithDelimiters: full rune list and
running index for boundary checks, current accumulated span, rest of input. -/
def tokenizeAux (runes delims : List Char) : Nat → List Char → List Char → List (List Char)
  | _, acc, [] =>
    let s := trimSpaceGo acc
    if s = [] then [] else [s]
  | i, acc, r :: rest =>
    let acc1 := acc ++ [r]
    if delims.contains r ∧ isEndOfSentence runes i = true then
      let s := trimSpaceGo acc1
      (if s = [] then [] else [s]) ++ tokenizeAux runes delims (i + 1) [] rest
    else
      tokenizeAux runes delims (i + 1) acc1 rest

/-- TokenizeSentencesWithDelimiters from tokenizer.go. -/
def TokenizeSentencesWithDelimiters (text delims : List Char) : List (List Char) :=
  if text = [] then [] else tokenizeAux text delims 0 [] text

/-- The CleanupLinks bit flag (1 shifted left by 0). -/
def CleanupLinks : Nat := 1

/-- The CleanupEmojis bit flag. -/
def CleanupEmojis : Nat := 2

/-- The CleanupTable bit flag. -/
def CleanupTable : Nat := 4

/-- The StripText bit flag. -/
def StripText : Nat := 8

/-- CleanupAll: all four cleanup flags. -/
def CleanupAll : Nat := 15

/-- HasFlag from text_utils.go: bitwise test of a cleanup flag. -/
def hasFlag (f flag : Nat) : Bool :=
  f &&& flag ≠ 0

/-- isEmojiRune from text_utils.go. -/
def isEmojiRune (c : Char) : Bool :=
  let r := c.toNat
  (0x1F600 ≤ r && r ≤ 0x1F64F) ||
  (0x1F300 ≤ r && r ≤ 0x1F5FF) ||
  (0x1F680 ≤ r && r ≤ 0x1F6FF) ||
  (0x1F1E6 ≤ r && r ≤ 0x1F1FF) ||
  (0x2600 ≤ r && r ≤ 0x26FF) ||
  (0x2700 ≤ r && r ≤ 0x27BF) ||
  (0xFE00 ≤ r && r ≤ 0xFE0F) ||
  (0x1F900 ≤ r && r ≤ 0x1F9FF) ||
  (0x1F018 ≤ r && r ≤ 0x1F270) ||
  r = 0x200D

/-- stripEmojis from text_utils.go. -/
def stripEmojis (text : List Char) : List Char :=
  text.filter (fun c => !(isEmojiRune c))

/-- stripHTTPURLs from text_utils.go: drop space-delimited words that begin
with an http or https scheme, rejoin with single spaces. -/
def stripHTTPURLs (text : List Char) : List Char :=
  let words := splitOnChar ' ' text
  let cleaned := words.filter
    (fun w => !(goHasPrefix "http://".data w || goHasPrefix "https://".data w))
  (cleaned.intersperse [' ']).flatten

/-- normalizeNewlines from text_utils.go, the fold over lines carrying the
consecutive-empty-line count. -/
def normalizeNewlinesAux : Nat → List (List Char) → List (List Char)
  | _, [] => []
  | cnt, line :: rest =>
    if trimSpaceGo line = [] then
      if cnt + 1 ≤ 1 then line :: normalizeNewlinesAux (cnt + 1) rest
      else normalizeNewlinesAux (cnt + 1) rest
    else line :: normalizeNewlinesAux 0 rest

/-- normalizeNewlines from text_utils.go: keep at most one consecutive
whitespace-only line. -/
def normalizeNewlines (text : List Char) : List Char :=
  ((normalizeNewlinesAux 0 (splitOnChar (Char.ofNat 10) text)).intersperse
    [Char.ofNat 10]).flatten

/-- The line fold of stripTableStructures: table lines become empty lines,
never two empty lines in a row. -/
def stripTableAux : List (List Char) → List (List Char) → List (List Char)
  | acc, [] => acc
  | acc, line :: rest =>
    if detectTableLine line then
      if acc ≠ [] ∧ acc.getLastD [] ≠ ([] : List Char) then
        stripTableAux (acc ++ [[]]) rest
      else stripTableAux acc rest
    else stripTableAux (acc ++ [line]) rest

/-- stripTableStructures from text_utils.go. -/
def stripTableStructures (text : List Char) : List Char :=
  normalizeNewlines
    (((stripTableAux [] (splitOnChar (Char.ofNat 10) text)).intersperse
      [Char.ofNat 10]).flatten)

/-- CleanText from text_utils.go: table, then links, then emojis, then trim,
each gated by its flag. -/
def CleanText (text : List Char) (flags : Nat) : List Char :=
  let r1 := if hasFlag flags CleanupTable then stripTableStructures text else text
  let r2 := if hasFlag flags CleanupLinks then stripHTTPURLs r1 else r1
  let r3 := if hasFlag flags CleanupEmojis then stripEmojis r2 else r2
  if hasFlag flags StripText then trimSpaceGo r3 else r3

/-- QuickYieldMode from avoid_pause_words.go. -/
inductive QuickYieldMode where
  | NoQuickYield : QuickYieldMode
  | QuickYieldFirstFragment : QuickYieldMode
  | QuickYieldAllFragments : QuickYieldMode
deriving DecidableEq

/-- SentenceSplitterConfig: the configuration fields of the splitter.  The
numeric fields are Go ints, modelled as integers. -/
structure SplitterConfig where
  contextSize : Int
  minimumSentenceLength : Int
  minimumFirstFragmentLength : Int
  quickYieldMode : QuickYieldMode
  cleanupOptions : Nat
  sentenceFragmentDelimiters : List Char
  fullSentenceDelimiters : List Char

/-- The mutable fields of SentenceSplitter (the pending-chunk queue is the
list of chunks still to be scanned, passed separately). -/
structure SplitterState where
  buffer : List Char
  isFirstSentence : Bool
  wordCount : Nat
  lastDelimiterPosition : Int
deriving DecidableEq

/-- DefaultConfig from avoid_pause_words.go. -/
def DefaultConfig : SplitterConfig where
  contextSize := 12
  minimumSentenceLength := 10
  minimumFirstFragmentLength := 10
  quickYieldMode := QuickYieldMode.QuickYieldAllFragments
  cleanupOptions := CleanupAll
  sentenceFragmentDelimiters := ".?!;:,\n…)]\x7d。-".data
  fullSentenceDelimiters := ".?!\n…。".data

/-- The internal state NewSentenceSplitter starts from. -/
def initState : SplitterState where
  buffer := []
  isFirstSentence := true
  wordCount := 0
  lastDelimiterPosition := -1

/-- The fold of combineSentences, carrying tempSentence. -/
def combineAux (lmin : Int) : List Char → List (List Char) → List (List Char)
  | temp, [] => if temp = [] then [] else [trimSpaceGo temp]
  | temp, s :: rest =>
    if (utf8Len s : Int) < lmin then combineAux lmin (temp ++ s ++ [' ']) rest
    else if temp ≠ [] then trimSpaceGo (temp ++ s) :: combineAux lmin [] rest
    else trimSpaceGo s :: combineAux lmin [] rest

/-- combineSentences from avoid_pause_words.go: merge spans shorter than the
minimum sentence length into the following span. -/
def combineSentences (lmin : Int) (sentences : List (List Char)) : List (List Char) :=
  if sentences.length ≤ 1 then sentences else combineAux lmin [] sentences

/-- Stream's word-count update: incremented on whitespace or a fragment
delimiter. -/
def updatedWordCount (cfg : SplitterConfig) (st : SplitterState) (c : Char) : Nat :=
  if goIsSpace c || cfg.sentenceFragmentDelimiters.contains c
    then st.wordCount + 1 else st.wordCount

/-- Stream's tracked offset of the most recent full-sentence delimiter,
updated when the current character is one. -/
def updatedLastDelimiter (cfg : SplitterConfig) (st : SplitterState)
    (buf1 : List Char) (c : Char) : Int :=
  if cfg.fullSentenceDelimiters.contains c
    then (utf8Len buf1 : Int) - 1 else st.lastDelimiterPosition

/-- Stream's contextWindowEndPos. -/
def contextWindowEndPos (cfg : SplitterConfig) (buf1 : List Char) : Int :=
  (utf8Len buf1 : Int) - cfg.contextSize - 1

/-- Stream's contextWindowStartPos, clamped at zero. -/
def contextWindowStartPos (cfg : SplitterConfig) (buf1 : List Char) : Int :=
  if contextWindowEndPos cfg buf1 - cfg.contextSize < 0 then 0
  else contextWindowEndPos cfg buf1 - cfg.contextSize

/-- Stream's re-tokenization of the buffer followed by minimum-length
coalescing. -/
def streamSentences (cfg : SplitterConfig) (buf1 : List Char) : List (List Char) :=
  combineSentences cfg.minimumSentenceLength
    (TokenizeSentencesWithDelimiters buf1 cfg.sentenceFragmentDelimiters)

/-- Stream's shouldProcess condition: more than two coalesced spans, or the
tracked full-sentence delimiter falls inside the context window. -/
def shouldProcessCond (cfg : SplitterConfig) (buf1 : List Char) (ldp : Int) : Prop :=
  (streamSentences cfg buf1).length > 2 ∨
    (ldp ≥ 0 ∧ contextWindowStartPos cfg buf1 ≤ ldp ∧ ldp ≤ contextWindowEndPos cfg buf1)

instance (cfg : SplitterConfig) (buf1 : List Char) (ldp : Int) :
    Decidable (shouldProcessCond cfg buf1 ldp) :=
  inferInstanceAs (Decidable (_ ∨ _))

/-- The state after Stream emits every coalesced span but the last: the last
span becomes the buffer (with a trailing space re-appended when the old
buffer ended in one), the quick-yield flag is rearmed only in all-fragments
mode, and counters reset. -/
def emitState (cfg : SplitterConfig) (st : SplitterState) (buf1 : List Char) :
    SplitterState :=
  ⟨(streamSentences cfg buf1).getLastD [] ++
      (if buf1.getLastD nulChar = ' ' then [' '] else []),
    (if cfg.quickYieldMode = QuickYieldMode.QuickYieldAllFragments then true
      else st.isFirstSentence),
    0, -1⟩

/-- The tail of Stream's character loop, reached once the buffer exceeds the
minimum sentence length plus the context window. -/
def processSteady (cfg : SplitterConfig) (st : SplitterState) (buf1 : List Char)
    (wc : Nat) (ldp : Int) : SplitterState × List (List Char) :=
  if shouldProcessCond cfg buf1 ldp ∧ (streamSentences cfg buf1).length > 1 then
    if (((streamSentences cfg buf1).dropLast.map utf8Len).sum : Int) ≥
        cfg.minimumSentenceLength then
      (emitState cfg st buf1,
        (streamSentences cfg buf1).dropLast.map (fun s => CleanText s cfg.cleanupOptions))
    else (⟨buf1, st.isFirstSentence, wc, ldp⟩, [])
  else (⟨buf1, st.isFirstSentence, wc, ldp⟩, [])

/-- One iteration of Stream's character loop: the updated splitter state and
the sentences emitted for this character, in order. -/
def processChar (cfg : SplitterConfig) (st : SplitterState) (c : Char) :
    SplitterState × List (List Char) :=
  if c = nulChar then (st, [])
  else
    let buf1 := trimLeftCutset (st.buffer ++ [c])
    if st.isFirstSentence = true ∧
        (utf8Len buf1 : Int) > cfg.minimumFirstFragmentLength ∧
        (cfg.quickYieldMode = QuickYieldMode.QuickYieldFirstFragment ∨
          cfg.quickYieldMode = QuickYieldMode.QuickYieldAllFragments) ∧
        cfg.sentenceFragmentDelimiters.contains c = true then
      (⟨[], false, 0, st.lastDelimiterPosition⟩, [CleanText buf1 cfg.cleanupOptions])
    else if (utf8Len buf1 : Int) ≤ cfg.minimumSentenceLength + cfg.contextSize then
      (⟨buf1, st.isFirstSentence, updatedWordCount cfg st c, st.lastDelimiterPosition⟩, [])
    else
      processSteady cfg st buf1 (updatedWordCount cfg st c)
        (updatedLastDelimiter cfg st buf1 c)

/-- Stream's loop over the characters of one chunk. -/
def processChunk (cfg : SplitterConfig) (st : SplitterState) :
    List Char → SplitterState × List (List Char)
  | [] => (st, [])
  | c :: cs =>
    let r1 := processChar cfg st c
    let r2 := processChunk cfg r1.1 cs
    (r2.1, r1.2 ++ r2.2)

/-- Stream from avoid_pause_words.go: drain the queued chunks in order,
returning the final state and all sentences emitted. -/
def streamChunks (cfg : SplitterConfig) (st : SplitterState) :
    List (List Char) → SplitterState × List (List Char)
  | [] => (st, [])
  | ch :: rest =>
    let r1 := processChunk cfg st ch
    let r2 := streamChunks cfg r1.1 rest
    (r2.1, r1.2 ++ r2.2)

/-- The span fold of Flush, carrying sentenceBuffer. -/
def flushAux (cfg : SplitterConfig) : List Char → List (List Char) → List (List Char)
  | sb, [] => if sb ≠ [] then [CleanText sb cfg.cleanupOptions] else []
  | sb, s :: rest =>
    let sb1 := sb ++ s
    if (utf8Len sb1 : Int) < cfg.minimumSentenceLength then
      flushAux cfg (sb1 ++ [' ']) rest
    else CleanText sb1 cfg.cleanupOptions :: flushAux cfg [] rest

/-- Flush from avoid_pause_words.go: re-tokenize the remaining buffer and
emit it in minimum-length groups. -/
def flushState (cfg : SplitterConfig) (st : SplitterState) : List (List Char) :=
  if st.buffer ≠ [] then
    flushAux cfg []
      (TokenizeSentencesWithDelimiters st.buffer cfg.sentenceFragmentDelimiters)
  else []

/-- The whole pipeline the claims exercise: Add the chunks, drain Stream,
then drain Flush; all emissions in order. -/
def runSplitter (cfg : SplitterConfig) (chunks : List (List Char)) : List (List Char) :=
  let r := streamChunks cfg initState chunks
  r.2 ++ flushState cfg r.1

/-! Concrete inputs and configurations named by the spec's examples. -/

/-- The end-to-end default-configuration example input. -/
def c1Input : List Char :=
  "This is a sentence. And here's another! Yet, there's more. This ends now.".data

/-- The abbreviation example input. -/
def drText : List Char :=
  "Dr. Smith went to U.S.A. He met Mr. Johnson.".data

/-- A tab-separated table row around a period: two tabs make
detectTableLine classify it as a table row, with a tab on each side of the
period at index 3. -/
def tabRowText : List Char :=
  ['a', Char.ofNat 9, 'B', '.', Char.ofNat 9, 'C', 'd']

/-- The minimum-length coalescing example input. -/
def c8Input : List Char :=
  "Hi. How are you? I am fine. Thanks for asking.".data

/-- The default configuration with minimum sentence length 15. -/
def cfgMin15 : SplitterConfig :=
  { DefaultConfig with minimumSentenceLength := 15 }

/-- The default configuration with all cleanup options disabled. -/
def cfgNoCleanup : SplitterConfig :=
  { DefaultConfig with cleanupOptions := 0 }

/-- The default configuration in first-fragment quick-yield mode. -/
def cfgFirstFragment : SplitterConfig :=
  { DefaultConfig with quickYieldMode := QuickYieldMode.QuickYieldFirstFragment }

/-- First-fragment quick-yield mode with cleanup disabled. -/
def cfgFirstFragmentNoCleanup : SplitterConfig :=
  { DefaultConfig with
      quickYieldMode := QuickYieldMode.QuickYieldFirstFragment
      cleanupOptions := 0 }

/-- An input whose leading fragment is a URL: under the default cleanup the
first quick-yield emission is stripped to the empty string. -/
def c9Input : List Char :=
  "http://aaaaaa.net more text here now okay.".data

/-- An input containing a sun emoji (U+2600, in the stripped Misc symbols
range) between ordinary words. -/
def emojiInput : List Char :=
  "Sunny day ☀ here. More text follows after.".data

/-- An input with a NUL character spliced into the first word. -/
def nulInput : List Char :=
  "Hel".data ++ [nulChar] ++ "lo there mate. General Kenobi! You are bold.".data

/-- The non-whitespace characters of a text, in order: emissions are compared
to the input up to whitespace normalization. -/
def nonWS (l : List Char) : List Char :=
  l.filter (fun c => !(goIsSpace c))

/-! The claims. -/

/-- C1: with the default configuration, feeding the single example input
through Add, draining Stream and then draining Flush emits exactly the four
expected sentences, in order and nothing else. -/
theorem c1_default_end_to_end :
    runSplitter DefaultConfig [c1Input] =
      ["This is a sentence.".data, "And here's another!".data,
       "Yet, there's more.".data, "This ends now.".data] := by
  decide

/-- C5 counterexample: in the abbreviation example the period inside
U.S.A. (position 19, right after the U) is classified as a sentence
boundary, so the example does not keep its boundary only after Johnson. -/
theorem c5_counterexample :
    drText.getD 19 nulChar = '.' ∧ isEndOfSentence drText 19 = true := by
  decide

/-- C5 amended: the abbreviation rule does suppress the periods of Dr. and
Mr., but the single letters of U.S.A. are not known abbreviation tokens and
each is followed by an uppercase letter, so tokenizing the example yields
the spans Dr. Smith went to U. / S. / A. / He met Mr. Johnson., and the
boundaries persist into the emitted output: the default-configuration
pipeline coalesces the short spans forward and emits the example as
Dr. Smith went to U. / S. A. He met Mr. Johnson., splitting U.S.A. across
the two emitted units. -/
theorem c5_amended_abbreviations :
    isEndOfSentence drText 2 = false ∧ isEndOfSentence drText 34 = false ∧
    TokenizeSentencesWithDelimiters drText DefaultConfig.sentenceFragmentDelimiters =
      ["Dr. Smith went to U.".data, "S.".data, "A.".data,
       "He met Mr. Johnson.".data] ∧
    runSplitter DefaultConfig [drText] =
      ["Dr. Smith went to U.".data, "S. A. He met Mr. Johnson.".data] := by
  decide

/-- C6 counterexample: a tab-separated table row (two tabs, so
detectTableLine classifies it as a table row) with a tab separator on each
side of the period at index 3; the classifier still declares the period a
boundary, because isInsideTableCell counts only pipe characters. -/
theorem c6_counterexample :
    detectTableLine (lineOf tabRowText 3) = true ∧
    tabRowText.getD 3 nulChar = '.' ∧
    DefaultConfig.sentenceFragmentDelimiters.contains '.' = true ∧
    lineOf tabRowText 3 = tabRowText ∧
    tabRowText.getD 1 nulChar = Char.ofNat 9 ∧
    tabRowText.getD 4 nulChar = Char.ofNat 9 ∧
    isEndOfSentence tabRowText 3 = true := by
  decide

/-- C6 amended: the suppression holds with pipe characters: when the
delimiter's line is classified as a table row and there is at least one pipe
character before and after the delimiter on that line, the classifier
decides the occurrence is not a boundary (the source counts only pipes, not
tabs or other table-art characters). -/
theorem c6_amended_table_cell (runes : List Char) (pos : Nat)
    (htable : detectTableLine (lineOf runes pos) = true)
    (hbefore : ((lineOf runes pos).take (pos - lineStartPos runes pos)).count '|' > 0)
    (hafter : ((lineOf runes pos).drop (pos - lineStartPos runes pos + 1)).count '|' > 0) :
    isEndOfSentence runes pos = false := by
  unfold isEndOfSentence isInsideTableCell
  simp [htable, hbefore, hafter]

/-- C6 witness: the pipe-delimited row recognized as a table cell. -/
theorem c6_witness :
    isEndOfSentence "|ab. cd|".data 3 = false :=
  c6_amended_table_cell "|ab. cd|".data 3 (by decide) (by decide) (by decide)

/-- Helper: when no character of the remaining input is a delimiter, the
tokenizer scan accumulates everything into one trimmed span. -/
theorem tokenizeAux_no_delims (runes delims : List Char) :
    ∀ (rest : List Char) (i : Nat) (acc : List Char),
      (∀ c ∈ rest, delims.contains c = false) →
      tokenizeAux runes delims i acc rest =
        if trimSpaceGo (acc ++ rest) = [] then [] else [trimSpaceGo (acc ++ rest)]
  | [], i, acc, _ => by simp [tokenizeAux]
  | r :: rest, i, acc, h => by
    have hr : delims.contains r = false := h r (by simp)
    have hrest : ∀ c ∈ rest, delims.contains c = false := fun c hc => h c (by simp [hc])
    unfold tokenizeAux
    rw [if_neg (fun hcon => by rw [hr] at hcon; exact absurd hcon.1 (by simp))]
    rw [tokenizeAux_no_delims runes delims rest (i + 1) (acc ++ [r]) hrest]
    simp

/-- C3 counterexample: the single-space text contains no delimiter character
for the empty delimiter set, yet tokenizing it returns zero spans rather
than one span equal to the trimmed input. -/
theorem c3_counterexample :
    TokenizeSentencesWithDelimiters [' '] [] = [] := by
  decide

/-- C3 amended: for every text whose whitespace-trim is nonempty and that
contains no occurrence of any delimiter character, the tokenizer returns
exactly one span, the whitespace-trimmed input (a whitespace-only or empty
text yields zero spans instead). -/
theorem c3_amended_no_delimiter_single_span (text delims : List Char)
    (hnd : ∀ c ∈ text, delims.contains c = false)
    (hne : trimSpaceGo text ≠ []) :
    TokenizeSentencesWithDelimiters text delims = [trimSpaceGo text] := by
  have htext : text ≠ [] := by
    intro h
    subst h
    exact hne (by simp [trimSpaceGo])
  unfold TokenizeSentencesWithDelimiters
  rw [if_neg htext, tokenizeAux_no_delims text delims text 0 [] hnd]
  simp [hne]

/-- C3 witness: a delimiter-free text tokenizes to itself. -/
theorem c3_witness :
    TokenizeSentencesWithDelimiters "hello world".data [';'] =
      [trimSpaceGo "hello world".data] :=
  c3_amended_no_delimiter_single_span "hello world".data [';'] (by decide) (by decide)

/-- Helper: the scanning loop discards a NUL character without any state
change or emission. -/
theorem processChar_nul (cfg : SplitterConfig) (st : SplitterState) :
    processChar cfg st nulChar = (st, []) := by
  unfold processChar
  rw [if_pos rfl]

/-- C10: NUL characters in a chunk are silently discarded before reaching
the buffer: processing a chunk is identical to processing the chunk with
all NUL characters removed, so a NUL never appears in an emission, never
counts toward a length threshold and never affects a boundary decision. -/
theorem c10_nul_discarded :
    (∀ (cfg : SplitterConfig) (st : SplitterState),
      processChar cfg st nulChar = (st, [])) ∧
    ∀ (cfg : SplitterConfig) (st : SplitterState) (chunk : List Char),
      processChunk cfg st chunk =
        processChunk cfg st (chunk.filter (fun c => c != nulChar)) := by
  refine ⟨processChar_nul, ?_⟩
  intro cfg st chunk
  induction chunk generalizing st with
  | nil => rfl
  | cons c cs ih =>
    by_cases hc : c = nulChar
    · subst hc
      simp [processChunk, processChar_nul, ih]
    · simp [processChunk, hc, ih]

/-- Helper: filtering distributes over append. -/
theorem nonWS_append (a b : List Char) : nonWS (a ++ b) = nonWS a ++ nonWS b := by
  unfold nonWS
  exact List.filter_append _ _

/-- Helper: a single space has no non-whitespace characters. -/
theorem nonWS_space : nonWS [' '] = [] := rfl

/-- Helper: nonWS of the empty list. -/
theorem nonWS_nil : nonWS [] = [] := rfl

/-- Helper: a leading space does not change nonWS. -/
theorem nonWS_space_cons (l : List Char) : nonWS (' ' :: l) = nonWS l := rfl

/-- Helper: dropping a whitespace-only prefix preserves the non-whitespace
characters. -/
theorem nonWS_dropWhile (p : Char → Bool) (hp : ∀ c, p c = true → goIsSpace c = true) :
    ∀ l : List Char, nonWS (l.dropWhile p) = nonWS l
  | [] => rfl
  | c :: l => by
    rw [List.dropWhile_cons]
    by_cases hc : p c = true
    · rw [if_pos hc, nonWS_dropWhile p hp l]
      simp [nonWS, hp c hc]
    · rw [if_neg hc]

/-- Helper: filtering commutes with reversal. -/
theorem nonWS_reverse (l : List Char) : nonWS l.reverse = (nonWS l).reverse := by
  unfold nonWS
  exact List.filter_reverse _ _

/-- Helper: trimming whitespace preserves the non-whitespace characters. -/
theorem nonWS_trimSpaceGo (l : List Char) : nonWS (trimSpaceGo l) = nonWS l := by
  unfold trimSpaceGo
  rw [nonWS_reverse, nonWS_dropWhile goIsSpace (fun _ h => h), nonWS_reverse,
    List.reverse_reverse, nonWS_dropWhile goIsSpace (fun _ h => h)]

/-- Helper: the splitter's left trim preserves the non-whitespace
characters. -/
theorem nonWS_trimLeftCutset (l : List Char) : nonWS (trimLeftCutset l) = nonWS l := by
  unfold trimLeftCutset
  refine nonWS_dropWhile _ (fun c h => ?_) l
  have hm : c ∈ asciiCutset := by
    have := List.elem_iff.mp h
    exact this
  simp only [asciiCutset, List.mem_cons, List.not_mem_nil, or_false] at hm
  rcases hm with rfl | rfl | rfl | rfl <;> decide

/-- Helper: the tokenizer only regroups and trims; the non-whitespace
characters of its concatenated spans are those of the scanned input. -/
theorem nonWS_flatten_tokenizeAux (runes delims : List Char) :
    ∀ (rest : List Char) (i : Nat) (acc : List Char),
      nonWS (tokenizeAux runes delims i acc rest).flatten = nonWS (acc ++ rest)
  | [], i, acc => by
    simp only [tokenizeAux]
    by_cases h : trimSpaceGo acc = []
    · rw [if_pos h]
      have h2 : nonWS acc = [] := by rw [← nonWS_trimSpaceGo, h]; rfl
      simp [h2, nonWS_nil]
    · rw [if_neg h]
      simp [nonWS_trimSpaceGo]
  | r :: rest, i, acc => by
    simp only [tokenizeAux]
    by_cases hb : (delims.contains r = true) ∧ isEndOfSentence runes i = true
    · rw [if_pos hb, List.flatten_append, nonWS_append,
        nonWS_flatten_tokenizeAux runes delims rest (i + 1) []]
      have h3 : nonWS (if trimSpaceGo (acc ++ [r]) = [] then ([] : List (List Char))
          else [trimSpaceGo (acc ++ [r])]).flatten = nonWS (acc ++ [r]) := by
        by_cases h : trimSpaceGo (acc ++ [r]) = []
        · rw [if_pos h]
          rw [← nonWS_trimSpaceGo (acc ++ [r]), h]
          rfl
        · rw [if_neg h]
          simp [nonWS_trimSpaceGo]
      rw [h3]
      rw [show ([] : List Char) ++ rest = rest from rfl]
      rw [← nonWS_append, List.append_assoc]
      simp
    · rw [if_neg hb, nonWS_flatten_tokenizeAux runes delims rest (i + 1) (acc ++ [r])]
      rw [List.append_assoc]
      simp

/-- Helper: nonWS preservation for the whole tokenizer. -/
theorem nonWS_flatten_tokenize (text delims : List Char) :
    nonWS (TokenizeSentencesWithDelimiters text delims).flatten = nonWS text := by
  unfold TokenizeSentencesWithDelimiters
  by_cases h : text = []
  · subst h; rfl
  · rw [if_neg h, nonWS_flatten_tokenizeAux]
    rfl

/-- Helper: coalescing short spans only regroups, trims and inserts single
spaces; the non-whitespace characters are preserved. -/
theorem nonWS_flatten_combineAux (lmin : Int) :
    ∀ (l : List (List Char)) (temp : List Char),
      nonWS (combineAux lmin temp l).flatten = nonWS (temp ++ l.flatten)
  | [], temp => by
    simp only [combineAux]
    by_cases h : temp = []
    · subst h; rfl
    · rw [if_neg h]
      simp [nonWS_trimSpaceGo]
  | s :: rest, temp => by
    simp only [combineAux]
    by_cases h1 : (utf8Len s : Int) < lmin
    · rw [if_pos h1, nonWS_flatten_combineAux lmin rest (temp ++ s ++ [' '])]
      simp [nonWS_append, nonWS_space_cons, List.append_assoc]
    · rw [if_neg h1]
      by_cases h2 : temp ≠ []
      · rw [if_pos h2]
        simp [List.flatten_cons, nonWS_append, nonWS_trimSpaceGo, nonWS_nil,
          nonWS_flatten_combineAux lmin rest [], List.append_assoc]
      · rw [if_neg h2]
        push_neg at h2
        subst h2
        simp [List.flatten_cons, nonWS_append, nonWS_trimSpaceGo, nonWS_nil,
          nonWS_flatten_combineAux lmin rest [], List.append_assoc]

/-- Helper: nonWS preservation for combineSentences. -/
theorem nonWS_flatten_combine (lmin : Int) (l : List (List Char)) :
    nonWS (combineSentences lmin l).flatten = nonWS l.flatten := by
  unfold combineSentences
  by_cases h : l.length ≤ 1
  · rw [if_pos h]
  · rw [if_neg h, nonWS_flatten_combineAux]
    rfl

/-- Helper: with all cleanup flags clear, CleanText is the identity. -/
theorem cleanText_zero (l : List Char) : CleanText l 0 = l := by
  unfold CleanText hasFlag
  simp

/-- Helper: a nonempty list is its dropLast followed by its last element. -/
theorem dropLast_append_getLastD :
    ∀ (l : List (List Char)) (d : List Char), l ≠ [] →
      l.dropLast ++ [l.getLastD d] = l
  | [a], _, _ => rfl
  | a :: b :: t, d, _ => by
    have ih := dropLast_append_getLastD (b :: t) a (by simp)
    rw [List.dropLast_cons₂, List.getLastD_cons, List.cons_append, ih]

/-- Helper: with cleanup disabled, the steady-state tail of the character
loop preserves non-whitespace characters between emissions and buffer. -/
theorem nonWS_processSteady (cfg : SplitterConfig) (st : SplitterState)
    (buf1 : List Char) (wc : Nat) (ldp : Int) (h0 : cfg.cleanupOptions = 0) :
    nonWS (processSteady cfg st buf1 wc ldp).2.flatten ++
      nonWS (processSteady cfg st buf1 wc ldp).1.buffer = nonWS buf1 := by
  unfold processSteady
  by_cases h1 : shouldProcessCond cfg buf1 ldp ∧ (streamSentences cfg buf1).length > 1
  · rw [if_pos h1]
    by_cases h2 : (((streamSentences cfg buf1).dropLast.map utf8Len).sum : Int) ≥
        cfg.minimumSentenceLength
    · rw [if_pos h2]
      have hne : streamSentences cfg buf1 ≠ [] := by
        intro hnil
        rw [hnil] at h1
        exact absurd h1.2 (by simp)
      have hmap : (streamSentences cfg buf1).dropLast.map
          (fun s => CleanText s cfg.cleanupOptions) = (streamSentences cfg buf1).dropLast := by
        rw [h0]
        simp [cleanText_zero]
      simp only [hmap]
      unfold emitState
      simp only
      rw [nonWS_append ((streamSentences cfg buf1).getLastD [] ) _]
      have hsp : nonWS (if buf1.getLastD nulChar = ' ' then [' '] else []) = [] := by
        by_cases h : buf1.getLastD nulChar = ' '
        · rw [if_pos h]; rfl
        · rw [if_neg h]; rfl
      rw [hsp, List.append_nil, ← nonWS_append]
      have hflat : (streamSentences cfg buf1).dropLast.flatten ++
          (streamSentences cfg buf1).getLastD [] =
          (streamSentences cfg buf1).flatten := by
        have h3 : ((streamSentences cfg buf1).dropLast ++
            [(streamSentences cfg buf1).getLastD []]).flatten =
            (streamSentences cfg buf1).dropLast.flatten ++
              (streamSentences cfg buf1).getLastD [] := by
          rw [List.flatten_append]
          simp
        rw [← h3, dropLast_append_getLastD _ _ hne]
      rw [hflat]
      unfold streamSentences
      rw [nonWS_flatten_combine, nonWS_flatten_tokenize]
    · rw [if_neg h2]
      simp [nonWS_nil]
  · rw [if_neg h1]
    simp [nonWS_nil]

/-- Helper: with cleanup disabled, one character step preserves the
non-whitespace characters of emissions plus buffer. -/
theorem nonWS_processChar (cfg : SplitterConfig) (st : SplitterState) (c : Char)
    (h0 : cfg.cleanupOptions = 0) (hc : c ≠ nulChar) :
    nonWS (processChar cfg st c).2.flatten ++ nonWS (processChar cfg st c).1.buffer =
      nonWS st.buffer ++ nonWS [c] := by
  unfold processChar
  rw [if_neg hc]
  simp only []
  by_cases hqy : st.isFirstSentence = true ∧
      (utf8Len (trimLeftCutset (st.buffer ++ [c])) : Int) > cfg.minimumFirstFragmentLength ∧
      (cfg.quickYieldMode = QuickYieldMode.QuickYieldFirstFragment ∨
        cfg.quickYieldMode = QuickYieldMode.QuickYieldAllFragments) ∧
      cfg.sentenceFragmentDelimiters.contains c = true
  · rw [if_pos hqy]
    simp [h0, cleanText_zero, nonWS_trimLeftCutset, nonWS_append, nonWS_nil]
  · rw [if_neg hqy]
    by_cases hsmall : (utf8Len (trimLeftCutset (st.buffer ++ [c])) : Int) ≤
        cfg.minimumSentenceLength + cfg.contextSize
    · rw [if_pos hsmall]
      simp [nonWS_trimLeftCutset, nonWS_append, nonWS_nil]
    · rw [if_neg hsmall]
      rw [nonWS_processSteady cfg st _ _ _ h0, nonWS_trimLeftCutset, nonWS_append]

/-- Helper: chunk processing preserves non-whitespace characters. -/
theorem nonWS_processChunk (cfg : SplitterConfig) (h0 : cfg.cleanupOptions = 0) :
    ∀ (chunk : List Char) (st : SplitterState),
      (∀ c ∈ chunk, c ≠ nulChar) →
      nonWS (processChunk cfg st chunk).2.flatten ++
        nonWS (processChunk cfg st chunk).1.buffer =
        nonWS st.buffer ++ nonWS chunk
  | [], st, _ => by simp [processChunk, nonWS_nil]
  | c :: cs, st, h => by
    have hc : c ≠ nulChar := h c (by simp)
    have hcs : ∀ x ∈ cs, x ≠ nulChar := fun x hx => h x (by simp [hx])
    have ih := nonWS_processChunk cfg h0 cs (processChar cfg st c).1 hcs
    have hstep := nonWS_processChar cfg st c h0 hc
    simp only [processChunk, List.flatten_append, nonWS_append, List.append_assoc]
    rw [ih, ← List.append_assoc, hstep]
    rw [show (c :: cs : List Char) = [c] ++ cs from rfl, nonWS_append, List.append_assoc]

/-- Helper: draining the chunk queue preserves non-whitespace characters. -/
theorem nonWS_streamChunks (cfg : SplitterConfig) (h0 : cfg.cleanupOptions = 0) :
    ∀ (chunks : List (List Char)) (st : SplitterState),
      (∀ ch ∈ chunks, ∀ c ∈ ch, c ≠ nulChar) →
      nonWS (streamChunks cfg st chunks).2.flatten ++
        nonWS (streamChunks cfg st chunks).1.buffer =
        nonWS st.buffer ++ nonWS chunks.flatten
  | [], st, _ => by simp [streamChunks, nonWS_nil]
  | ch :: rest, st, h => by
    have hch : ∀ c ∈ ch, c ≠ nulChar := h ch (by simp)
    have hrest : ∀ x ∈ rest, ∀ c ∈ x, c ≠ nulChar := fun x hx => h x (by simp [hx])
    have ih := nonWS_streamChunks cfg h0 rest (processChunk cfg st ch).1 hrest
    have hstep := nonWS_processChunk cfg h0 ch st hch
    simp only [streamChunks, List.flatten_cons, List.flatten_append, nonWS_append,
      List.append_assoc]
    rw [ih, ← List.append_assoc, hstep, List.append_assoc]

/-- Helper: the flush fold emits every span it is given, joined by spaces. -/
theorem nonWS_flushAux (cfg : SplitterConfig) (h0 : cfg.cleanupOptions = 0) :
    ∀ (l : List (List Char)) (sb : List Char),
      nonWS (flushAux cfg sb l).flatten = nonWS sb ++ nonWS l.flatten
  | [], sb => by
    simp only [flushAux]
    by_cases h : sb ≠ []
    · rw [if_pos h, h0]
      simp [cleanText_zero, nonWS_append, nonWS_nil]
    · rw [if_neg h]
      push_neg at h
      subst h
      rfl
  | s :: rest, sb => by
    simp only [flushAux]
    by_cases h : (utf8Len (sb ++ s) : Int) < cfg.minimumSentenceLength
    · rw [if_pos h, nonWS_flushAux cfg h0 rest (sb ++ s ++ [' '])]
      simp [nonWS_append, nonWS_space_cons, nonWS_nil, List.append_assoc]
    · rw [if_neg h, h0]
      simp only [List.flatten_cons, nonWS_append, cleanText_zero,
        nonWS_flushAux cfg h0 rest []]
      simp [nonWS_append, nonWS_nil, List.append_assoc]

/-- Helper: flushing emits exactly the non-whitespace characters left in the
buffer. -/
theorem nonWS_flushState (cfg : SplitterConfig) (st : SplitterState)
    (h0 : cfg.cleanupOptions = 0) :
    nonWS (flushState cfg st).flatten = nonWS st.buffer := by
  unfold flushState
  by_cases h : st.buffer ≠ []
  · rw [if_pos h, nonWS_flushAux cfg h0, nonWS_flatten_tokenize]
    rfl
  · rw [if_neg h]
    push_neg at h
    rw [h]
    rfl

/-- C2 counterexample: with the default configuration (cleanup all) an input
containing a sun emoji loses that non-whitespace character: the
concatenated emissions do not reproduce the input up to whitespace
normalization. -/
theorem c2_counterexample :
    nonWS (runSplitter DefaultConfig [emojiInput]).flatten ≠ nonWS emojiInput := by
  decide

/-- C2 amended: for every configuration whose cleanup options are disabled
and every input stream containing no NUL character, the concatenation of
all strings emitted by Stream and then Flush reproduces exactly the
non-whitespace characters of the input, in order: nothing is dropped or
duplicated.  (With cleanup options enabled the cleanup passes themselves
remove non-whitespace content such as URLs and emojis, and NUL characters
are always discarded.) -/
theorem c2_amended_order_preservation (cfg : SplitterConfig)
    (chunks : List (List Char)) (h0 : cfg.cleanupOptions = 0)
    (hn : ∀ ch ∈ chunks, ∀ c ∈ ch, c ≠ nulChar) :
    nonWS (runSplitter cfg chunks).flatten = nonWS chunks.flatten := by
  unfold runSplitter
  simp only [List.flatten_append, nonWS_append]
  rw [nonWS_flushState cfg _ h0]
  have h := nonWS_streamChunks cfg h0 chunks initState hn
  rw [show initState.buffer = [] from rfl] at h
  rw [h]
  rfl

/-- C2 witness: a concrete no-cleanup run preserving the non-whitespace
characters. -/
theorem c2_witness :
    nonWS (runSplitter cfgNoCleanup
        ["Hello there mate. General Kenobi! You are bold.".data]).flatten =
      nonWS ["Hello there mate. General Kenobi! You are bold.".data].flatten :=
  c2_amended_order_preservation cfgNoCleanup
    ["Hello there mate. General Kenobi! You are bold.".data] rfl (by decide)

/-- Helper: left-trimming a list ending in c either empties it or keeps c
as its last element. -/
theorem getLast_trimLeftCutset_append (l : List Char) (c : Char) :
    trimLeftCutset (l ++ [c]) = [] ∨
      (trimLeftCutset (l ++ [c])).getLast? = some c := by
  unfold trimLeftCutset
  induction l with
  | nil =>
    rw [List.nil_append, List.dropWhile_cons]
    by_cases h : asciiCutset.contains c = true
    · rw [if_pos h, List.dropWhile_nil]
      exact Or.inl rfl
    · rw [if_neg h]
      exact Or.inr rfl
  | cons a l ih =>
    rw [List.cons_append, List.dropWhile_cons]
    by_cases h : asciiCutset.contains a = true
    · rw [if_pos h]
      exact ih
    · rw [if_neg h]
      right
      rw [← List.cons_append, List.getLast?_concat]

/-- Helper: steady-state processing never rearms the quick-yield flag unless
the mode is all-fragments. -/
theorem isFirst_processSteady (cfg : SplitterConfig) (st : SplitterState)
    (buf1 : List Char) (wc : Nat) (ldp : Int)
    (hm : cfg.quickYieldMode ≠ QuickYieldMode.QuickYieldAllFragments) :
    (processSteady cfg st buf1 wc ldp).1.isFirstSentence = st.isFirstSentence := by
  unfold processSteady
  by_cases h1 : shouldProcessCond cfg buf1 ldp ∧ (streamSentences cfg buf1).length > 1
  · rw [if_pos h1]
    by_cases h2 : (((streamSentences cfg buf1).dropLast.map utf8Len).sum : Int) ≥
        cfg.minimumSentenceLength
    · rw [if_pos h2]
      unfold emitState
      simp only
      rw [if_neg hm]
    · rw [if_neg h2]
  · rw [if_neg h1]

/-- Helper: in first-fragment mode a cleared quick-yield flag stays cleared
across a character step. -/
theorem isFirst_monotone_processChar (cfg : SplitterConfig) (st : SplitterState)
    (c : Char) (hm : cfg.quickYieldMode = QuickYieldMode.QuickYieldFirstFragment)
    (hf : st.isFirstSentence = false) :
    (processChar cfg st c).1.isFirstSentence = false := by
  unfold processChar
  by_cases hc : c = nulChar
  · rw [if_pos hc]
    exact hf
  · rw [if_neg hc]
    simp only []
    rw [if_neg (fun hqy => Bool.false_ne_true (hf.symm.trans hqy.1))]
    by_cases hsmall : (utf8Len (trimLeftCutset (st.buffer ++ [c])) : Int) ≤
        cfg.minimumSentenceLength + cfg.contextSize
    · rw [if_pos hsmall]
      exact hf
    · rw [if_neg hsmall]
      rw [isFirst_processSteady cfg st _ _ _ (by rw [hm]; intro h; cases h)]
      exact hf

/-- Helper: in first-fragment mode a cleared quick-yield flag stays cleared
across a whole chunk. -/
theorem isFirst_monotone_processChunk (cfg : SplitterConfig)
    (hm : cfg.quickYieldMode = QuickYieldMode.QuickYieldFirstFragment) :
    ∀ (chunk : List Char) (st : SplitterState), st.isFirstSentence = false →
      (processChunk cfg st chunk).1.isFirstSentence = false
  | [], _, hf => hf
  | c :: cs, st, hf => by
    simp only [processChunk]
    exact isFirst_monotone_processChunk cfg hm cs _
      (isFirst_monotone_processChar cfg st c hm hf)

/-- C9 counterexample: in first-fragment mode with the default configuration
(minimum first-fragment length 10, cleanup all), the input whose leading
fragment is a URL produces a first emitted unit that is the empty string:
its length 0 is below 10. -/
theorem c9_counterexample :
    (runSplitter cfgFirstFragment [c9Input]).head? = some [] := by
  decide

/-- C9 amended: with cleanup disabled the quick-yield branch in
first-fragment mode emits exactly the trimmed buffer, whose byte length
exceeds the threshold 10 and whose last character is the triggering fragment
delimiter, and clears the first-sentence flag; and in first-fragment mode a
cleared flag never returns to true, so the quick-yield path fires at most
once and every later emission follows the normal minimum-length policy or
Flush.  (With cleanup enabled the emitted unit may be shorter than 10, as
the counterexample shows.) -/
theorem c9_amended_quick_yield :
    (∀ (cfg : SplitterConfig) (st : SplitterState) (c : Char),
      cfg.cleanupOptions = 0 →
      cfg.quickYieldMode = QuickYieldMode.QuickYieldFirstFragment →
      cfg.minimumFirstFragmentLength = 10 →
      st.isFirstSentence = true → c ≠ nulChar →
      cfg.sentenceFragmentDelimiters.contains c = true →
      (utf8Len (trimLeftCutset (st.buffer ++ [c])) : Int) > 10 →
      processChar cfg st c =
        (⟨[], false, 0, st.lastDelimiterPosition⟩,
          [trimLeftCutset (st.buffer ++ [c])]) ∧
      (trimLeftCutset (st.buffer ++ [c])).getLast? = some c) ∧
    (∀ (cfg : SplitterConfig) (st : SplitterState) (chunks : List (List Char)),
      cfg.quickYieldMode = QuickYieldMode.QuickYieldFirstFragment →
      st.isFirstSentence = false →
      (streamChunks cfg st chunks).1.isFirstSentence = false) := by
  constructor
  · intro cfg st c h0 hm hf10 hfirst hc hcontains hlen
    have hne : trimLeftCutset (st.buffer ++ [c]) ≠ [] := by
      intro hnil
      rw [hnil] at hlen
      exact absurd hlen (by decide)
    constructor
    · unfold processChar
      rw [if_neg hc]
      simp only []
      rw [if_pos ⟨hfirst, by rw [hf10]; exact hlen, Or.inl hm, hcontains⟩]
      rw [h0, cleanText_zero]
    · rcases getLast_trimLeftCutset_append st.buffer c with h | h
      · exact absurd h hne
      · exact h
  · intro cfg st chunks hm hf
    induction chunks generalizing st with
    | nil => exact hf
    | cons ch rest ih =>
      simp only [streamChunks]
      exact ih _ (isFirst_monotone_processChunk cfg hm ch st hf)

/-- C9 witness: the quick-yield branch at a concrete state and the
flag staying cleared on a concrete stream. -/
theorem c9_witness :
    (processChar cfgFirstFragmentNoCleanup
        (SplitterState.mk "hello worl".data true 0 (-1)) ',' =
      (SplitterState.mk [] false 0 (-1),
        [trimLeftCutset ("hello worl".data ++ [','])]) ∧
      (trimLeftCutset ("hello worl".data ++ [','])).getLast? = some ',') ∧
    (streamChunks cfgFirstFragmentNoCleanup
        (SplitterState.mk [] false 0 (-1)) ["ab. cd. ef.".data]).1.isFirstSentence
      = false :=
  ⟨c9_amended_quick_yield.1 cfgFirstFragmentNoCleanup
      (SplitterState.mk "hello worl".data true 0 (-1)) ',' rfl rfl rfl rfl
      (by decide) (by decide) (by decide),
    c9_amended_quick_yield.2 cfgFirstFragmentNoCleanup
      (SplitterState.mk [] false 0 (-1)) ["ab. cd. ef.".data] rfl rfl⟩

/-- C8: with minimum sentence length 15 the example input is emitted as two
units, and every unit except the last has length at least 15 (short spans
are merged forward before emission). -/
theorem c8_min_length_coalescing :
    runSplitter cfgMin15 [c8Input] =
      ["Hi. How are you?".data, "I am fine. Thanks for asking.".data] ∧
    ∀ s ∈ (runSplitter cfgMin15 [c8Input]).dropLast, 15 ≤ utf8Len s := by
  decide

end Stream2Sentence
